import Mathlib

/-!
Verification development for the TicTacToe multiplayer STREAM server with
multicast failover (tictactoeServer).  The definitions are a shallow embedding
of the C source: board cells are byte values modelled as Nat, the in-place
board mutation of the recursive search is modelled by explicit state passing
(each function takes the board and returns the board it leaves behind), C ints
are modelled as Int, and fallible operations return Option.
-/

namespace TTT

/-- The board marker used for Player 1: the byte value of the character X. -/
def P1_MARK : Nat := 88

/-- The board marker used for Player 2: the byte value of the character O. -/
def P2_MARK : Nat := 79

/-- The INT32_MIN constant used to initialize the maximizer's best score. -/
def INT32_MIN : Int := -2147483648

/-- The INT16_MAX constant used to initialize the minimizer's best score. -/
def INT16_MAX : Int := 32767

/-- The label byte of cell i (0-based): the digit character (i+1)+'0' of the C source. -/
def label (i : Nat) : Nat := 49 + i

/-- The TicTacToe board: the char board[GAME_SIZE] array of struct TTT_Game,
one byte (as a Nat) per cell. -/
structure Board where
  c1 : Nat
  c2 : Nat
  c3 : Nat
  c4 : Nat
  c5 : Nat
  c6 : Nat
  c7 : Nat
  c8 : Nat
  c9 : Nat
  deriving DecidableEq, Repr

/-- Reads board[i] (0-based), the C expression game->board[i].  The C loops only
index 0..8; an out-of-range read is modelled as 0. -/
def getCell (g : Board) : Nat → Nat
  | 0 => g.c1
  | 1 => g.c2
  | 2 => g.c3
  | 3 => g.c4
  | 4 => g.c5
  | 5 => g.c6
  | 6 => g.c7
  | 7 => g.c8
  | 8 => g.c9
  | _ => 0

/-- Writes board[i] = v (0-based), the C assignment game->board[i] = v.  The C
loops only index 0..8; an out-of-range write is modelled as a no-op. -/
def setCell (g : Board) : Nat → Nat → Board
  | 0, v => { g with c1 := v }
  | 1, v => { g with c2 := v }
  | 2, v => { g with c3 := v }
  | 3, v => { g with c4 := v }
  | 4, v => { g with c5 := v }
  | 5, v => { g with c6 := v }
  | 6, v => { g with c7 := v }
  | 7, v => { g with c8 := v }
  | 8, v => { g with c9 := v }
  | _, _ => g

/-- The freshly initialized board produced by init_shared_state:
board[i-1] = i + '0' for i = 1..9, i.e. every cell holds its own label. -/
def init_shared_state : Board := ⟨49, 50, 51, 52, 53, 54, 55, 56, 57⟩

/-- The brute-force win check of the C function check_win: tests the 3 rows,
3 columns and 2 diagonals in order and returns +score for a line whose first
cell is P1_MARK, -score otherwise, where score = GAME_SIZE + 1 = 10; returns 0
when no line has three equal cells. -/
def check_win (g : Board) : Int :=
  if g.c1 = g.c2 ∧ g.c2 = g.c3 then (if g.c1 = P1_MARK then 10 else -10)
  else if g.c4 = g.c5 ∧ g.c5 = g.c6 then (if g.c4 = P1_MARK then 10 else -10)
  else if g.c7 = g.c8 ∧ g.c8 = g.c9 then (if g.c7 = P1_MARK then 10 else -10)
  else if g.c1 = g.c4 ∧ g.c4 = g.c7 then (if g.c1 = P1_MARK then 10 else -10)
  else if g.c2 = g.c5 ∧ g.c5 = g.c8 then (if g.c2 = P1_MARK then 10 else -10)
  else if g.c3 = g.c6 ∧ g.c6 = g.c9 then (if g.c3 = P1_MARK then 10 else -10)
  else if g.c1 = g.c5 ∧ g.c5 = g.c9 then (if g.c1 = P1_MARK then 10 else -10)
  else if g.c3 = g.c5 ∧ g.c5 = g.c7 then (if g.c3 = P1_MARK then 10 else -10)
  else 0

/-- The index sequence 0..8 iterated by every C loop of the form
for (i = 0; i < sizeof(game->board); i++). -/
def positions : List Nat := [0, 1, 2, 3, 4, 5, 6, 7, 8]

/-- The C function check_draw: true when no board cell still holds its own
label (loop over i = 0..8 returning 0 at the first cell equal to (i+1)+'0'). -/
def check_draw (g : Board) : Bool :=
  positions.all (fun i => getCell g i != label i)

/-- One iteration of the move loops inside the C function minimax: if cell i is
still its own label, place the mark, evaluate the position with the recursive
call rec, undo the move, and keep the better score (strictly greater for the
maximizer, strictly smaller for the minimizer).  The accumulator carries the
running best score and the board being mutated in place. -/
def mmStep (rec : Board → Int × Board) (isMax : Bool) (acc : Int × Board) (i : Nat) :
    Int × Board :=
  if getCell acc.2 i = label i then
    let b1 := setCell acc.2 i (if isMax then P1_MARK else P2_MARK)
    let r := rec b1
    let b2 := setCell r.2 i (label i)
    (if isMax then (if acc.1 < r.1 then r.1 else acc.1)
     else (if r.1 < acc.1 then r.1 else acc.1), b2)
  else acc

/-- The C function minimax, state-passing: returns the best score achievable
for the maximizer together with the board left behind (the C mutates the board
in place and undoes every trial move).  The C recursion terminates because each
recursive call has one fewer empty cell; the embedding carries that bound as an
explicit fuel argument, and every call in this file supplies fuel at least the
number of empty cells, so the fuel-exhausted branch is never reached. -/
def minimax (fuel : Nat) (g : Board) (depth : Nat) (isMax : Bool) : Int × Board :=
  let score := check_win g
  if 0 < score then (score - depth, g)
  else if score < 0 then (score + depth, g)
  else if check_draw g then (0, g)
  else
    match fuel with
    | 0 => (0, g)
    | Nat.succ f =>
      positions.foldl
        (mmStep (fun b => minimax f b (depth + 1) (!isMax)) isMax)
        ((if isMax then INT32_MIN else INT16_MAX), g)

/-- One iteration of the move loop of the C function find_best_move: if cell i
is empty, try Player 1's mark there, score the position with minimax at depth 0
for the minimizer, undo the move, and record i+1 as the best move when its
score strictly improves on the best score so far.  The accumulator carries
(bestMove, bestValue, board). -/
def fbmStep (acc : Int × Int × Board) (i : Nat) : Int × Int × Board :=
  if getCell acc.2.2 i = label i then
    let b1 := setCell acc.2.2 i P1_MARK
    let r := minimax 9 b1 0 false
    let b2 := setCell r.2 i (label i)
    if acc.2.1 < r.1 then ((i : Int) + 1, r.1, b2) else (acc.1, acc.2.1, b2)
  else acc

/-- The C function find_best_move, state-passing: scans positions 0..8 in
ascending order starting from bestMove = -1 and bestValue = INT32_MIN and
returns the chosen 1-based move together with the board left behind. -/
def find_best_move (g : Board) : Int × Board :=
  let a := positions.foldl fbmStep (-1, INT32_MIN, g)
  (a.1, a.2.2)

/-- The protocol version number used (C constant VERSION). -/
def VERSION : Nat := 6

/-- The TCP command to begin a new game (C constant NEW_GAME). -/
def NEW_GAME : Nat := 0

/-- The TCP command to issue a move (C constant MOVE). -/
def MOVE : Nat := 1

/-- The TCP command to signal that the game has ended (C constant GAME_OVER). -/
def GAME_OVER : Nat := 2

/-- The TCP command to resume a previously started game (C constant RESUME_GAME). -/
def RESUME_GAME : Nat := 3

/-- The UDP command by which a client requests an open game (C constant REQUEST_GAME). -/
def REQUEST_GAME : Nat := 4

/-- The UDP command answering that a game is available (C constant GAME_AVAILABLE). -/
def GAME_AVAILABLE : Nat := 5

/-- The maximum number of games the server can play simultaneously
(C constant MAX_GAMES). -/
def MAX_GAMES : Nat := 10

/-- The struct TTT_Game of the C source: socket descriptor of the connected
player, game number, winner (-1 when the game is not over, 0 for a draw,
otherwise the winning player), and the board. -/
structure TTT_Game where
  sd : Int
  gameNum : Nat
  winner : Int
  board : Board
  deriving DecidableEq, Repr

/-- The struct TCP_Buffer of the C source.  Each field is one byte on the wire
(a C char); fields are modelled as the unsigned byte value 0..255.  The C
compares the signed char against constants 0..10: a byte with the sign bit set
is negative in C and fails the same range checks its unsigned value fails, so
the byte-level model accepts exactly the same messages. -/
structure TCP_Buffer where
  version : Nat
  command : Nat
  data : Nat
  gameNum : Nat
  deriving DecidableEq, Repr

/-- The struct UDP_Buffer of the C source: version byte, command byte, and a
2-byte port field (kept in network byte order exactly as the C stores it). -/
structure UDP_Buffer where
  version : Nat
  command : Nat
  port : Nat
  deriving DecidableEq, Repr

/-- The value of a C char read from a byte, as an Int: bytes 128..255 are the
negative values -128..-1 on the signed char of the target. -/
def signedChar (b : Nat) : Int := if b < 128 then (b : Int) else (b : Int) - 256

/-- The conversion htons applied by create_endpoint to the 16-bit listening
port: the two bytes swapped into network byte order. -/
def htons (p : Nat) : Nat := p % 256 * 256 + p / 256 % 256

/-- The C function reset_game without its I/O (the close of the connection and
the log line): the socket slot becomes unbound (-1), the winner returns to -1,
and the board is freshly initialized; the game number is preserved. -/
def reset_game (game : TTT_Game) : TTT_Game :=
  { game with sd := -1, winner := -1, board := init_shared_state }

/-- The C function validate_move: the choice must be a number 1..9, the chosen
square must still hold its own label, and no winning move may have been made. -/
def validate_move (choice : Int) (game : TTT_Game) : Bool :=
  if choice < 1 ∨ 9 < choice then false
  else if (getCell game.board (choice - 1).toNat : Int) ≠ choice + 48 then false
  else if 0 < game.winner then false
  else true

/-- The C function check_game_over without its printing: returns whether the
game has ended together with the updated game, recording winner 1 when
check_win is positive, 2 when negative, and 0 on a draw. -/
def check_game_over (game : TTT_Game) : Bool × TTT_Game :=
  let score := check_win game.board
  if score ≠ 0 then (true, { game with winner := if 0 < score then 1 else 2 })
  else if check_draw game.board then (true, { game with winner := 0 })
  else (false, game)

/-- The C function send_p1_move with the transport send modelled as succeeding:
computes the move with find_best_move and validates it; the C re-invokes the
search while validation fails, and because the search is a pure function of the
unchanged board a failing validation would repeat forever, which is modelled as
none.  On success it returns the move, the game as the search left it, and the
MOVE message sent to the remote player. -/
def send_p1_move (game : TTT_Game) : Option (Int × TTT_Game × TCP_Buffer) :=
  let r := find_best_move game.board
  let g1 := { game with board := r.2 }
  if validate_move r.1 g1 then
    some (r.1, g1,
      { version := VERSION, command := MOVE, data := (r.1 + 48).toNat,
        gameNum := game.gameNum })
  else none

/-- The C function send_game_over with the transport send modelled as
succeeding: emits the GAME_OVER message and resets the game. -/
def send_game_over (game : TTT_Game) : TTT_Game × List TCP_Buffer :=
  (reset_game game,
   [{ version := VERSION, command := GAME_OVER, data := 0, gameNum := game.gameNum }])

/-- The C command handler new_game: initializes the board, computes and sends
the first move, and marks it on the board.  The send failure branch of the C
cannot occur in the model (sends succeed); none only stands for the
never-terminating validation retry inside send_p1_move. -/
def new_game (msg : TCP_Buffer) (game : TTT_Game) : Option (TTT_Game × List TCP_Buffer) :=
  let g0 := { game with board := init_shared_state }
  match send_p1_move g0 with
  | none => none
  | some (mv, g1, out) =>
    some ({ g1 with board := setCell g1.board (mv - 1).toNat P1_MARK }, [out])

/-- The C command handler move: validates the remote player's move (resetting
the game when invalid), applies Player 2's mark, answers with GAME_OVER when
that ends the game, and otherwise computes, sends and applies Player 1's reply,
recording the outcome if the exchange ended the game. -/
def move (msg : TCP_Buffer) (game : TTT_Game) : Option (TTT_Game × List TCP_Buffer) :=
  let mv : Int := signedChar msg.data - 48
  if validate_move mv game then
    let g1 := { game with board := setCell game.board (mv - 1).toNat P2_MARK }
    let r := check_game_over g1
    if r.1 then some (send_game_over r.2)
    else
      match send_p1_move r.2 with
      | none => none
      | some (mv2, g2, out) =>
        let g3 := { g2 with board := setCell g2.board (mv2 - 1).toNat P1_MARK }
        some ((check_game_over g3).2, [out])
  else some (reset_game game, [])

/-- The C command handler game_over: prints the outcome and resets the game. -/
def game_over (msg : TCP_Buffer) (game : TTT_Game) : Option (TTT_Game × List TCP_Buffer) :=
  some (reset_game game, [])

/-- One iteration of the snapshot loop of the C function load_shared_state over
the received bytes: a zero byte leaves the cell as it was, a mark byte is
written to the board and counted for its player, and any other byte rejects the
snapshot. -/
def load_loop (snap : Board) : List Nat → Board → Nat → Nat → Option (Board × Nat × Nat)
  | [], b, p1, p2 => some (b, p1, p2)
  | i :: rest, b, p1, p2 =>
    let mark := getCell snap i
    if mark = 0 ∨ mark = P1_MARK ∨ mark = P2_MARK then
      if mark ≠ 0 then
        load_loop snap rest (setCell b i mark)
          (if mark = P1_MARK then p1 + 1 else p1)
          (if mark = P1_MARK then p2 else p2 + 1)
      else load_loop snap rest b p1 p2
    else none

/-- The C function load_shared_state with the 9 received snapshot bytes given
as input (the C receives them from the socket into boardState and mutates the
game board in place; every rejecting caller resets the game, so rejection is
modelled as none): applies the mark bytes to the board and rejects the snapshot
when the two players' move counts differ. -/
def load_shared_state (snap : Board) (b : Board) : Option Board :=
  match load_loop snap positions b 0 0 with
  | none => none
  | some (b1, p1, p2) => if p1 ≠ p2 then none else some b1

/-- The C command handler resume_game with the snapshot bytes given as input:
loads the shared state (resetting the game when it is rejected), answers with
GAME_OVER when the restored board is already terminal, and otherwise computes,
sends and applies Player 1's move. -/
def resume_game (snap : Board) (msg : TCP_Buffer) (game : TTT_Game) :
    Option (TTT_Game × List TCP_Buffer) :=
  match load_shared_state snap game.board with
  | none => some (reset_game game, [])
  | some b =>
    let g1 := { game with board := b }
    let r := check_game_over g1
    if r.1 then some (send_game_over r.2)
    else
      match send_p1_move r.2 with
      | none => none
      | some (mv, g2, out) =>
        let g3 := { g2 with board := setCell g2.board (mv - 1).toNat P1_MARK }
        some ((check_game_over g3).2, [out])

/-- The validation of the C function get_tcp_command on a fully received
message: the version must match, the command must be in the session command
set NEW_GAME..RESUME_GAME, and for commands other than NEW_GAME the game
number must be 1..MAX_GAMES. -/
def get_tcp_command_ok (msg : TCP_Buffer) : Bool :=
  if msg.version ≠ VERSION then false
  else if RESUME_GAME < msg.command then false
  else if msg.command ≠ NEW_GAME ∧ (msg.gameNum < 1 ∨ MAX_GAMES < msg.gameNum) then false
  else true

/-- The per-slot message processing of the C reactor loop (tictactoe, the
gameRoster scan): a successfully received and validated message is dispatched
through the function pointer table commands[msg.command] to the handler for
the game the connection belongs to; an invalid message resets that game. -/
def handle_tcp (snap : Board) (msg : TCP_Buffer) (game : TTT_Game) :
    Option (TTT_Game × List TCP_Buffer) :=
  if get_tcp_command_ok msg then
    if msg.command = NEW_GAME then new_game msg game
    else if msg.command = MOVE then move msg game
    else if msg.command = GAME_OVER then game_over msg game
    else resume_game snap msg game
  else some (reset_game game, [])

/-- The reactor's dispatch of one inbound session message at roster index slot
(the slot whose connection the message arrived on): only that slot's game is
read and replaced. -/
def server_handle_game (roster : List TTT_Game) (slot : Nat) (snap : Board)
    (msg : TCP_Buffer) : Option (List TTT_Game × List TCP_Buffer) :=
  match roster.get? slot with
  | none => some (roster, [])
  | some g =>
    match handle_tcp snap msg g with
    | none => none
    | some (g1, out) => some (roster.set slot g1, out)

/-- The scan loop of the C function find_open_game, carrying the running
index. -/
def find_open_game_loop : List TTT_Game → Nat → Int
  | [], _ => -1
  | g :: rest, i => if g.sd < 0 then (i : Int) else find_open_game_loop rest (i + 1)

/-- The C function find_open_game: the index of the first game no client is
connected to (sd < 0), or ERROR_CODE = -1 when every slot is taken. -/
def find_open_game (roster : List TTT_Game) : Int :=
  find_open_game_loop roster 0

/-- The accept branch of the C reactor loop (tictactoe): a newly accepted
connection is assigned to the first open game when one exists; otherwise the
connection is closed again (second component true) and the roster is left
unchanged. -/
def accept_connection (roster : List TTT_Game) (connected_sd : Int) :
    List TTT_Game × Bool :=
  let gameIndx := find_open_game roster
  if 0 ≤ gameIndx then
    match roster.get? gameIndx.toNat with
    | some g => (roster.set gameIndx.toNat { g with sd := connected_sd }, false)
    | none => (roster, false)
  else (roster, true)

/-- The validation of the C function get_udp_command on a received discovery
datagram: the version must match and the command must be in the discovery
command set REQUEST_GAME..GAME_AVAILABLE. -/
def get_udp_command_ok (d : UDP_Buffer) : Bool :=
  if d.version ≠ VERSION then false
  else if d.command < REQUEST_GAME ∨ GAME_AVAILABLE < d.command then false
  else true

/-- The C function send_game_available with the transport send modelled as
succeeding: the GAME_AVAILABLE datagram carrying the server's own listening
port as stored in serverAddr.sin_port (network byte order). -/
def send_game_available (sin_port : Nat) : UDP_Buffer :=
  { version := VERSION, command := GAME_AVAILABLE, port := sin_port }

/-- The C command handler request_game: answers with a GAME_AVAILABLE datagram
when an open game exists, and sends nothing when the roster is full. -/
def request_game (roster : List TTT_Game) (sin_port : Nat) : Option UDP_Buffer :=
  if 0 ≤ find_open_game roster then some (send_game_available sin_port) else none

/-! Basic facts about cell access. -/

/-- Writing a cell twice keeps only the second write. -/
lemma setCell_setCell (g : Board) (i v w : Nat) :
    setCell (setCell g i v) i w = setCell g i w := by
  rcases i with _|_|_|_|_|_|_|_|_|i <;> rfl

/-- Writing back the value a cell already holds does not change the board. -/
lemma setCell_eq_self (g : Board) (i v : Nat) (h : getCell g i = v) :
    setCell g i v = g := by
  subst h
  rcases i with _|_|_|_|_|_|_|_|_|i <;> rfl

/-! The search restores the board: every trial move is undone. -/

/-- One minimax loop iteration returns the board it received. -/
lemma mmStep_snd (rec : Board → Int × Board) (hrec : ∀ b, (rec b).2 = b)
    (m : Bool) (acc : Int × Board) (i : Nat) : (mmStep rec m acc i).2 = acc.2 := by
  unfold mmStep
  split
  next h =>
    simp only
    rw [hrec, setCell_setCell, setCell_eq_self _ _ _ h]
  next => rfl

/-- The whole minimax move loop returns the board it received. -/
lemma foldl_mmStep_snd (rec : Board → Int × Board) (hrec : ∀ b, (rec b).2 = b)
    (m : Bool) : ∀ (L : List Nat) (acc : Int × Board),
    (L.foldl (mmStep rec m) acc).2 = acc.2 := by
  intro L
  induction L with
  | nil => intro acc; rfl
  | cons i rest ih =>
    intro acc
    rw [List.foldl_cons, ih, mmStep_snd rec hrec]

/-- The C function minimax leaves the board exactly as it found it. -/
lemma minimax_snd : ∀ (fuel : Nat) (g : Board) (depth : Nat) (isMax : Bool),
    (minimax fuel g depth isMax).2 = g := by
  intro fuel
  induction fuel with
  | zero =>
    intro g depth isMax
    rw [minimax]
    split
    next => rfl
    next =>
      split
      next => rfl
      next =>
        split
        next => rfl
        next => rfl
  | succ f ih =>
    intro g depth isMax
    rw [minimax]
    split
    next => rfl
    next =>
      split
      next => rfl
      next =>
        split
        next => rfl
        next => exact foldl_mmStep_snd _ (fun b => ih b (depth + 1) (!isMax)) isMax positions _

/-- One find_best_move loop iteration returns the board it received. -/
lemma fbmStep_snd (acc : Int × Int × Board) (i : Nat) :
    (fbmStep acc i).2.2 = acc.2.2 := by
  unfold fbmStep
  split
  next h =>
    simp only
    rw [minimax_snd, setCell_setCell, setCell_eq_self _ _ _ h]
    split <;> rfl
  next => rfl

/-- The whole find_best_move loop returns the board it received. -/
lemma foldl_fbmStep_snd : ∀ (L : List Nat) (acc : Int × Int × Board),
    (L.foldl fbmStep acc).2.2 = acc.2.2 := by
  intro L
  induction L with
  | nil => intro acc; rfl
  | cons i rest ih =>
    intro acc
    rw [List.foldl_cons, ih, fbmStep_snd]

/-- The C function find_best_move leaves the board exactly as it found it. -/
lemma find_best_move_snd (g : Board) : (find_best_move g).2 = g := by
  rw [find_best_move, foldl_fbmStep_snd]

/-- Claim C9: for every board, the best-move search leaves the board it was
given unchanged — every cell holds the same value after find_best_move (and
after every recursive minimax call) returns as it held at entry, because each
in-place trial move is undone before returning. -/
theorem claim_C9 :
    (∀ (fuel : Nat) (g : Board) (depth : Nat) (isMax : Bool),
        (minimax fuel g depth isMax).2 = g) ∧
    (∀ g : Board, (find_best_move g).2 = g) :=
  ⟨minimax_snd, find_best_move_snd⟩


/-! Values taken by check_win, and the shape of one minimax loop step. -/

/-- The C check_win only returns 10, 0 or -10. -/
lemma check_win_cases (g : Board) : check_win g = 10 ∨ check_win g = 0 ∨ check_win g = -10 := by
  rw [check_win]
  split_ifs <;> simp

/-- A strict-improvement update is a maximum. -/
lemma ite_lt_max (a b : Int) : (if a < b then b else a) = max a b := by
  rcases lt_or_ge a b with h | h
  · rw [if_pos h, max_eq_right h.le]
  · rw [if_neg (not_lt.mpr h), max_eq_left h]

/-- A strict-improvement update is a minimum. -/
lemma ite_lt_min (a b : Int) : (if b < a then b else a) = min a b := by
  rcases lt_or_ge b a with h | h
  · rw [if_pos h, min_eq_right h.le]
  · rw [if_neg (not_lt.mpr h), min_eq_left h]

/-- The score component of one maximizer loop step. -/
lemma mmStep_fst_true (rec : Board → Int × Board) (acc : Int × Board) (i : Nat) :
    (mmStep rec true acc i).1 =
      if getCell acc.2 i = label i then
        max acc.1 (rec (setCell acc.2 i P1_MARK)).1
      else acc.1 := by
  rw [mmStep]
  split
  next h => simp [ite_lt_max]
  next h => rfl

/-- The score component of one minimizer loop step. -/
lemma mmStep_fst_false (rec : Board → Int × Board) (acc : Int × Board) (i : Nat) :
    (mmStep rec false acc i).1 =
      if getCell acc.2 i = label i then
        min acc.1 (rec (setCell acc.2 i P2_MARK)).1
      else acc.1 := by
  rw [mmStep]
  split
  next h => simp [ite_lt_min]
  next h => rfl


/-! Directional bounds through the minimax move loop. -/

/-- If every empty cell's recursive score is at most B, the maximizer loop
stays at most B. -/
lemma foldl_mmStep_max_le (rec : Board → Int × Board) (hrec : ∀ b, (rec b).2 = b)
    (B : Int) : ∀ (L : List Nat) (acc : Int × Board),
    (∀ i ∈ L, getCell acc.2 i = label i → (rec (setCell acc.2 i P1_MARK)).1 ≤ B) →
    acc.1 ≤ B → (L.foldl (mmStep rec true) acc).1 ≤ B := by
  intro L
  induction L with
  | nil => intro acc _ h2; rw [List.foldl_nil]; exact h2
  | cons i rest ih =>
    intro acc h1 h2
    rw [List.foldl_cons]
    apply ih
    · intro j hj hcell
      rw [mmStep_snd rec hrec] at hcell ⊢
      exact h1 j (List.mem_cons_of_mem _ hj) hcell
    · rw [mmStep_fst_true]
      split
      next hcell => exact max_le h2 (h1 i (List.mem_cons_self i rest) hcell)
      next => exact h2

/-- If some empty cell's recursive score is at least B (or the accumulator
already is), the maximizer loop ends at least B. -/
lemma foldl_mmStep_max_ge (rec : Board → Int × Board) (hrec : ∀ b, (rec b).2 = b)
    (B : Int) : ∀ (L : List Nat) (acc : Int × Board),
    ((∃ j ∈ L, getCell acc.2 j = label j ∧ B ≤ (rec (setCell acc.2 j P1_MARK)).1) ∨
      B ≤ acc.1) →
    B ≤ (L.foldl (mmStep rec true) acc).1 := by
  intro L
  induction L with
  | nil =>
    intro acc h
    rw [List.foldl_nil]
    rcases h with ⟨j, hj, _⟩ | h
    · exact absurd hj (List.not_mem_nil j)
    · exact h
  | cons i rest ih =>
    intro acc h
    rw [List.foldl_cons]
    apply ih
    rcases h with ⟨j, hj, hcell, hge⟩ | hge
    · rcases List.mem_cons.mp hj with hji | hjr
      · subst hji
        right
        rw [mmStep_fst_true, if_pos hcell]
        exact le_max_of_le_right hge
      · left
        refine ⟨j, hjr, ?_, ?_⟩
        · rw [mmStep_snd rec hrec]; exact hcell
        · rw [mmStep_snd rec hrec]; exact hge
    · right
      rw [mmStep_fst_true]
      split
      next => exact le_max_of_le_left hge
      next => exact hge

/-- If every empty cell's recursive score is at least B, the minimizer loop
stays at least B. -/
lemma foldl_mmStep_min_ge (rec : Board → Int × Board) (hrec : ∀ b, (rec b).2 = b)
    (B : Int) : ∀ (L : List Nat) (acc : Int × Board),
    (∀ i ∈ L, getCell acc.2 i = label i → B ≤ (rec (setCell acc.2 i P2_MARK)).1) →
    B ≤ acc.1 → B ≤ (L.foldl (mmStep rec false) acc).1 := by
  intro L
  induction L with
  | nil => intro acc _ h2; rw [List.foldl_nil]; exact h2
  | cons i rest ih =>
    intro acc h1 h2
    rw [List.foldl_cons]
    apply ih
    · intro j hj hcell
      rw [mmStep_snd rec hrec] at hcell ⊢
      exact h1 j (List.mem_cons_of_mem _ hj) hcell
    · rw [mmStep_fst_false]
      split
      next hcell => exact le_min h2 (h1 i (List.mem_cons_self i rest) hcell)
      next => exact h2

/-- If some empty cell's recursive score is at most B (or the accumulator
already is), the minimizer loop ends at most B. -/
lemma foldl_mmStep_min_le (rec : Board → Int × Board) (hrec : ∀ b, (rec b).2 = b)
    (B : Int) : ∀ (L : List Nat) (acc : Int × Board),
    ((∃ j ∈ L, getCell acc.2 j = label j ∧ (rec (setCell acc.2 j P2_MARK)).1 ≤ B) ∨
      acc.1 ≤ B) →
    (L.foldl (mmStep rec false) acc).1 ≤ B := by
  intro L
  induction L with
  | nil =>
    intro acc h
    rw [List.foldl_nil]
    rcases h with ⟨j, hj, _⟩ | h
    · exact absurd hj (List.not_mem_nil j)
    · exact h
  | cons i rest ih =>
    intro acc h
    rw [List.foldl_cons]
    apply ih
    rcases h with ⟨j, hj, hcell, hle⟩ | hle
    · rcases List.mem_cons.mp hj with hji | hjr
      · subst hji
        right
        rw [mmStep_fst_false, if_pos hcell]
        exact min_le_of_right_le hle
      · left
        refine ⟨j, hjr, ?_, ?_⟩
        · rw [mmStep_snd rec hrec]; exact hcell
        · rw [mmStep_snd rec hrec]; exact hle
    · right
      rw [mmStep_fst_false]
      split
      next => exact min_le_of_left_le hle
      next => exact hle


/-! The four cases of the C function minimax, as rewrite equations. -/

/-- A position already won by the maximizer scores its win score minus depth. -/
lemma minimax_win_pos (fuel : Nat) (g : Board) (depth : Nat) (m : Bool)
    (h : 0 < check_win g) : minimax fuel g depth m = (check_win g - depth, g) := by
  cases fuel with
  | zero => rw [minimax, if_pos h]
  | succ f => rw [minimax, if_pos h]

/-- A position already won by the minimizer scores its loss score plus depth. -/
lemma minimax_win_neg (fuel : Nat) (g : Board) (depth : Nat) (m : Bool)
    (h : check_win g < 0) : minimax fuel g depth m = (check_win g + depth, g) := by
  cases fuel with
  | zero => rw [minimax, if_neg (not_lt.mpr h.le), if_pos h]
  | succ f => rw [minimax, if_neg (not_lt.mpr h.le), if_pos h]

/-- A drawn position scores zero. -/
lemma minimax_draw (fuel : Nat) (g : Board) (depth : Nat) (m : Bool)
    (h0 : check_win g = 0) (hd : check_draw g = true) :
    minimax fuel g depth m = (0, g) := by
  cases fuel with
  | zero =>
    rw [minimax, if_neg (by rw [h0]; exact lt_irrefl 0),
      if_neg (by rw [h0]; exact lt_irrefl 0), if_pos hd]
  | succ f =>
    rw [minimax, if_neg (by rw [h0]; exact lt_irrefl 0),
      if_neg (by rw [h0]; exact lt_irrefl 0), if_pos hd]

/-- The fuel-exhausted branch (never reached by the calls in this file). -/
lemma minimax_zero (g : Board) (depth : Nat) (m : Bool)
    (h0 : check_win g = 0) (hd : check_draw g ≠ true) :
    minimax 0 g depth m = (0, g) := by
  rw [minimax, if_neg (by rw [h0]; exact lt_irrefl 0),
    if_neg (by rw [h0]; exact lt_irrefl 0), if_neg hd]

/-- A live position unfolds to the move loop. -/
lemma minimax_succ (f : Nat) (g : Board) (depth : Nat) (m : Bool)
    (h0 : check_win g = 0) (hd : check_draw g ≠ true) :
    minimax (f + 1) g depth m =
      positions.foldl (mmStep (fun b => minimax f b (depth + 1) (!m)) m)
        ((if m then INT32_MIN else INT16_MAX), g) := by
  rw [minimax, if_neg (by rw [h0]; exact lt_irrefl 0),
    if_neg (by rw [h0]; exact lt_irrefl 0), if_neg hd]

/-- A board that is not a draw still has a cell holding its own label. -/
lemma exists_empty_of_not_draw (g : Board) (h : check_draw g ≠ true) :
    ∃ j ∈ positions, getCell g j = label j := by
  by_contra hc
  push_neg at hc
  apply h
  rw [check_draw, List.all_eq_true]
  intro i hi
  simp only [bne_iff_ne, ne_eq]
  exact hc i hi

/-- Every minimax score is at least -(10 + depth + fuel); in particular the
search value always strictly exceeds the INT32_MIN seed of find_best_move. -/
lemma minimax_fst_ge : ∀ (fuel : Nat) (g : Board) (depth : Nat) (m : Bool),
    -(10 + depth + fuel : Int) ≤ (minimax fuel g depth m).1 := by
  intro fuel
  induction fuel with
  | zero =>
    intro g depth m
    rcases check_win_cases g with h | h | h
    · rw [minimax_win_pos 0 g depth m (by rw [h]; norm_num), h]
      push_cast
      omega
    · by_cases hd : check_draw g = true
      · rw [minimax_draw 0 g depth m h hd]
        push_cast
        omega
      · rw [minimax_zero g depth m h hd]
        push_cast
        omega
    · rw [minimax_win_neg 0 g depth m (by rw [h]; norm_num), h]
      push_cast
      omega
  | succ f ih =>
    intro g depth m
    rcases check_win_cases g with h | h | h
    · rw [minimax_win_pos (f + 1) g depth m (by rw [h]; norm_num), h]
      push_cast
      omega
    · by_cases hd : check_draw g = true
      · rw [minimax_draw (f + 1) g depth m h hd]
        push_cast
        omega
      · rw [minimax_succ f g depth m h hd]
        cases m
        · apply foldl_mmStep_min_ge _ (fun b => minimax_snd f b (depth + 1) (!false)) _ positions
          · intro i hi hcell
            refine le_trans ?_ (ih (setCell g i P2_MARK) (depth + 1) (!false))
            push_cast
            omega
          · refine le_trans ?_ (by norm_num [INT16_MAX] : (0 : Int) ≤ INT16_MAX)
            push_cast
            omega
        · apply foldl_mmStep_max_ge _ (fun b => minimax_snd f b (depth + 1) (!true)) _ positions
          left
          obtain ⟨j, hj, hcell⟩ := exists_empty_of_not_draw g hd
          refine ⟨j, hj, hcell, ?_⟩
          refine le_trans ?_ (ih (setCell g j P1_MARK) (depth + 1) (!true))
          push_cast
          omega
    · rw [minimax_win_neg (f + 1) g depth m (by rw [h]; norm_num), h]
      push_cast
      omega


/-! The find_best_move loop: ascending scan, first maximal value kept. -/

/-- The score find_best_move assigns to trying Player 1's mark at cell i:
the C sequence board[i] = P1_MARK; minimax(game, 0, 0); undo. -/
def moveValue (g : Board) (i : Nat) : Int := (minimax 9 (setCell g i P1_MARK) 0 false).1

/-- Every candidate score is at least -19, so any candidate strictly beats the
INT32_MIN seed. -/
lemma moveValue_ge (g : Board) (i : Nat) : (-19 : Int) ≤ moveValue g i := by
  have h := minimax_fst_ge 9 (setCell g i P1_MARK) 0 false
  rw [moveValue]
  norm_num at h
  exact h

/-- One find_best_move loop step, written with the board it leaves unchanged. -/
lemma fbmStep_eq (acc : Int × Int × Board) (i : Nat) :
    fbmStep acc i =
      if getCell acc.2.2 i = label i then
        (if acc.2.1 < moveValue acc.2.2 i then ((i : Int) + 1, moveValue acc.2.2 i, acc.2.2)
         else (acc.1, acc.2.1, acc.2.2))
      else acc := by
  rw [fbmStep]
  split
  next h =>
    simp only [moveValue, minimax_snd, setCell_setCell, setCell_eq_self _ _ _ h]
  next h => rfl

/-- Taking one more loop index appends it on the right. -/
lemma take_positions_succ (n : Nat) (hn : n ≤ 8) :
    List.take (n + 1) positions = List.take n positions ++ [n] := by
  interval_cases n <;> rfl

/-- Invariant of the find_best_move scan after the first n loop iterations:
the board is untouched, and either no empty cell has been seen and the
accumulator still holds bestMove = -1 with the INT32_MIN seed, or bestMove
names the first empty cell attaining the maximal score among the cells
scanned so far (ties kept at the earlier index). -/
lemma fbm_invariant (g : Board) : ∀ n, n ≤ 9 →
    (List.foldl fbmStep (-1, INT32_MIN, g) (List.take n positions)).2.2 = g ∧
    (((∀ k, k < n → getCell g k ≠ label k) ∧
        List.foldl fbmStep (-1, INT32_MIN, g) (List.take n positions) =
          (-1, INT32_MIN, g)) ∨
      (∃ j, j < n ∧ getCell g j = label j ∧
        (List.foldl fbmStep (-1, INT32_MIN, g) (List.take n positions)).1 = (j : Int) + 1 ∧
        (List.foldl fbmStep (-1, INT32_MIN, g) (List.take n positions)).2.1 = moveValue g j ∧
        (∀ k, k < n → getCell g k = label k → moveValue g k ≤ moveValue g j) ∧
        (∀ k, k < j → getCell g k = label k → moveValue g k < moveValue g j))) := by
  intro n
  induction n with
  | zero =>
    intro _
    refine ⟨rfl, Or.inl ⟨?_, rfl⟩⟩
    intro k hk
    omega
  | succ n ih =>
    intro hn
    obtain ⟨ihframe, ihcase⟩ := ih (by omega)
    rw [take_positions_succ n (by omega), List.foldl_append, List.foldl_cons,
      List.foldl_nil, fbmStep_eq, ihframe]
    by_cases hcell : getCell g n = label n
    · rw [if_pos hcell]
      rcases ihcase with ⟨hnone, heq⟩ | ⟨j, hj, hc, h1, h2, h3, h4⟩
      · rw [heq]
        have hmv : ((-1, INT32_MIN, g) : Int × Int × Board).2.1 < moveValue g n := by
          have := moveValue_ge g n
          norm_num [INT32_MIN]
          omega
        rw [if_pos hmv]
        refine ⟨rfl, Or.inr ⟨n, by omega, hcell, rfl, rfl, ?_, ?_⟩⟩
        · intro k hk hlab
          rcases Nat.lt_succ_iff_lt_or_eq.mp hk with hk | hk
          · exact absurd hlab (hnone k hk)
          · subst hk; exact le_refl _
        · intro k hk hlab
          exact absurd hlab (hnone k hk)
      · rw [h2]
        by_cases hlt : moveValue g j < moveValue g n
        · rw [if_pos hlt]
          refine ⟨rfl, Or.inr ⟨n, by omega, hcell, rfl, rfl, ?_, ?_⟩⟩
          · intro k hk hlab
            rcases Nat.lt_succ_iff_lt_or_eq.mp hk with hk | hk
            · exact le_of_lt (lt_of_le_of_lt (h3 k hk hlab) hlt)
            · subst hk; exact le_refl _
          · intro k hk hlab
            exact lt_of_le_of_lt (h3 k hk hlab) hlt
        · rw [if_neg hlt]
          refine ⟨rfl, Or.inr ⟨j, by omega, hc, by rw [h1], rfl, ?_, h4⟩⟩
          intro k hk hlab
          rcases Nat.lt_succ_iff_lt_or_eq.mp hk with hk | hk
          · exact h3 k hk hlab
          · subst hk; exact not_lt.mp hlt
    · rw [if_neg hcell]
      refine ⟨ihframe, ?_⟩
      rcases ihcase with ⟨hnone, heq⟩ | ⟨j, hj, hc, h1, h2, h3, h4⟩
      · left
        refine ⟨?_, heq⟩
        intro k hk
        rcases Nat.lt_succ_iff_lt_or_eq.mp hk with hk | hk
        · exact hnone k hk
        · subst hk; exact hcell
      · right
        refine ⟨j, by omega, hc, h1, h2, ?_, h4⟩
        intro k hk hlab
        rcases Nat.lt_succ_iff_lt_or_eq.mp hk with hk | hk
        · exact h3 k hk hlab
        · subst hk; exact absurd hlab hcell


/-- The chosen move component of find_best_move, as the final loop state. -/
lemma find_best_move_fst (g : Board) :
    (find_best_move g).1 = (List.foldl fbmStep (-1, INT32_MIN, g) positions).1 := by
  dsimp only [find_best_move]

/-- Whenever some cell still holds its label, find_best_move returns the first
empty position attaining the maximal candidate score: the returned move is
1-based, its cell is empty, no empty cell scores strictly higher, and every
earlier empty cell scores strictly lower. -/
lemma find_best_move_spec (g : Board) (hne : ∃ i, i < 9 ∧ getCell g i = label i) :
    ∃ j, j < 9 ∧ getCell g j = label j ∧ (find_best_move g).1 = (j : Int) + 1 ∧
      (∀ k, k < 9 → getCell g k = label k → moveValue g k ≤ moveValue g j) ∧
      (∀ k, k < j → getCell g k = label k → moveValue g k < moveValue g j) := by
  obtain ⟨hframe, hcase⟩ := fbm_invariant g 9 le_rfl
  rcases hcase with ⟨hnone, _⟩ | ⟨j, hj, hc, h1, h2, h3, h4⟩
  · obtain ⟨i, hi, hlab⟩ := hne
    exact absurd hlab (hnone i hi)
  · refine ⟨j, hj, hc, ?_, h3, h4⟩
    rw [find_best_move_fst]
    rw [show List.take 9 positions = positions from rfl] at h1
    exact h1


/-- The cell invariant of the specification: every cell holds its own label or
one of the two player marks. -/
def cellInv (g : Board) : Prop :=
  ∀ i, i < 9 → getCell g i = label i ∨ getCell g i = P1_MARK ∨ getCell g i = P2_MARK

instance (g : Board) : Decidable (cellInv g) := by
  rw [cellInv]
  infer_instance

/-- The move returned by find_best_move passes validate_move. -/
lemma validate_find_best_move (game : TTT_Game) (j : Nat) (hj : j < 9)
    (hc : getCell game.board j = label j)
    (h1 : (find_best_move game.board).1 = (j : Int) + 1)
    (hNoWin : game.winner ≤ 0) :
    validate_move (find_best_move game.board).1 game = true := by
  rw [h1, validate_move]
  rw [if_neg (by omega : ¬((j : Int) + 1 < 1 ∨ 9 < (j : Int) + 1))]
  rw [if_neg (not_not_intro ?_), if_neg (not_lt.mpr hNoWin)]
  rw [show ((j : Int) + 1 - 1).toNat = j from by omega, hc, label]
  push_cast
  omega

/-- Claim C2: on a board satisfying the cell invariant with at least one cell
still holding its label and no recorded winner, find_best_move returns a
position in 1..9 whose cell currently holds its own label, validate_move
accepts it, and send_p1_move's defensive re-validation loop therefore runs
exactly one iteration (the search result is sent, never recomputed). -/
theorem claim_C2 (game : TTT_Game) (hInv : cellInv game.board)
    (hEmpty : ∃ i, i < 9 ∧ getCell game.board i = label i)
    (hNoWin : game.winner ≤ 0) :
    1 ≤ (find_best_move game.board).1 ∧ (find_best_move game.board).1 ≤ 9 ∧
    getCell game.board ((find_best_move game.board).1 - 1).toNat =
      label ((find_best_move game.board).1 - 1).toNat ∧
    validate_move (find_best_move game.board).1 game = true ∧
    send_p1_move game ≠ none := by
  obtain ⟨j, hj, hc, h1, h3, h4⟩ := find_best_move_spec game.board hEmpty
  have hval := validate_find_best_move game j hj hc h1 hNoWin
  refine ⟨by rw [h1]; omega, by rw [h1]; omega, ?_, hval, ?_⟩
  · rw [h1, show ((j : Int) + 1 - 1).toNat = j from by omega]
    exact hc
  · rw [send_p1_move, find_best_move_snd]
    rw [show ({ game with board := game.board } : TTT_Game) = game from rfl]
    rw [if_pos hval]
    simp

/-- Witness for claim C2: the freshly initialized board satisfies all three
hypotheses, so the theorem applies to it. -/
theorem claim_C2_witness :
    1 ≤ (find_best_move init_shared_state).1 ∧ (find_best_move init_shared_state).1 ≤ 9 ∧
    getCell init_shared_state ((find_best_move init_shared_state).1 - 1).toNat =
      label ((find_best_move init_shared_state).1 - 1).toNat ∧
    validate_move (find_best_move init_shared_state).1
      { sd := 5, gameNum := 1, winner := -1, board := init_shared_state } = true ∧
    send_p1_move { sd := 5, gameNum := 1, winner := -1, board := init_shared_state } ≠ none :=
  claim_C2 { sd := 5, gameNum := 1, winner := -1, board := init_shared_state }
    (by decide) ⟨0, by norm_num, by decide⟩ (by decide)


/-! Strategy certificates: a compact witness that bounds a minimax value
without exploring the full game tree.  At a node where the bounded player
moves, the certificate names one reply; at a node where the opponent moves,
it provides a sub-certificate for every empty cell. -/

/-- A bound certificate for the game-tree search. -/
inductive Cert where
  | leaf : Cert
  | pick : Nat → Cert → Cert
  | branch : List (Nat × Cert) → Cert

/-- Association-list lookup of the sub-certificate for a cell. -/
def lookupCert : List (Nat × Cert) → Nat → Option Cert
  | [], _ => none
  | p :: rest, i => if p.1 = i then some p.2 else lookupCert rest i

/-- Every loop index below 9 is in the scanned position list. -/
lemma mem_positions (j : Nat) (hj : j < 9) : j ∈ positions := by
  interval_cases j <;> decide

/-- Checks a certificate that the minimax value is at most B: at maximizer
nodes every empty cell must be covered, at minimizer nodes one named reply
suffices; terminal scores are checked directly. -/
def ubCheck (fuel : Nat) (g : Board) (depth : Nat) (isMax : Bool) (B : Int)
    (c : Cert) : Bool :=
  let score := check_win g
  if 0 < score then decide (score - depth ≤ B)
  else if score < 0 then decide (score + depth ≤ B)
  else if check_draw g then decide ((0 : Int) ≤ B)
  else
    match fuel with
    | 0 => decide ((0 : Int) ≤ B)
    | Nat.succ f =>
      if isMax then
        match c with
        | Cert.branch l =>
          positions.all (fun i =>
            if getCell g i = label i then
              match lookupCert l i with
              | some sub => ubCheck f (setCell g i P1_MARK) (depth + 1) false B sub
              | none => false
            else true)
        | _ => false
      else
        match c with
        | Cert.pick j sub =>
          decide (j < 9) && decide (getCell g j = label j) &&
            ubCheck f (setCell g j P2_MARK) (depth + 1) true B sub
        | _ => false

/-- Checks a certificate that the minimax value is at least B: at minimizer
nodes every empty cell must be covered, at maximizer nodes one named move
suffices; terminal scores are checked directly. -/
def lbCheck (fuel : Nat) (g : Board) (depth : Nat) (isMax : Bool) (B : Int)
    (c : Cert) : Bool :=
  let score := check_win g
  if 0 < score then decide (B ≤ score - depth)
  else if score < 0 then decide (B ≤ score + depth)
  else if check_draw g then decide (B ≤ (0 : Int))
  else
    match fuel with
    | 0 => decide (B ≤ (0 : Int))
    | Nat.succ f =>
      if isMax then
        match c with
        | Cert.pick j sub =>
          decide (j < 9) && decide (getCell g j = label j) &&
            lbCheck f (setCell g j P1_MARK) (depth + 1) false B sub
        | _ => false
      else
        match c with
        | Cert.branch l =>
          positions.all (fun i =>
            if getCell g i = label i then
              match lookupCert l i with
              | some sub => lbCheck f (setCell g i P2_MARK) (depth + 1) true B sub
              | none => false
            else true)
        | _ => false


/-! Case equations for the certificate checkers. -/

/-- ubCheck at a maximizer win. -/
lemma ubCheck_win_pos (fuel : Nat) (g : Board) (depth : Nat) (m : Bool) (B : Int)
    (c : Cert) (h : 0 < check_win g) :
    ubCheck fuel g depth m B c = decide (check_win g - depth ≤ B) := by
  cases fuel <;> cases m <;> cases c <;> (rw [ubCheck, if_pos h]) <;> (intros; simp_all)

/-- ubCheck at a minimizer win. -/
lemma ubCheck_win_neg (fuel : Nat) (g : Board) (depth : Nat) (m : Bool) (B : Int)
    (c : Cert) (h : check_win g < 0) :
    ubCheck fuel g depth m B c = decide (check_win g + depth ≤ B) := by
  cases fuel <;> cases m <;> cases c <;>
    (rw [ubCheck, if_neg (not_lt.mpr h.le), if_pos h]) <;> (intros; simp_all)

/-- ubCheck at a draw. -/
lemma ubCheck_draw (fuel : Nat) (g : Board) (depth : Nat) (m : Bool) (B : Int)
    (c : Cert) (h0 : check_win g = 0) (hd : check_draw g = true) :
    ubCheck fuel g depth m B c = decide ((0 : Int) ≤ B) := by
  cases fuel <;> cases m <;> cases c <;>
    (rw [ubCheck, if_neg (by rw [h0]; exact lt_irrefl 0),
      if_neg (by rw [h0]; exact lt_irrefl 0), if_pos hd]) <;> (intros; simp_all)

/-- ubCheck with exhausted fuel at a live position. -/
lemma ubCheck_zero (g : Board) (depth : Nat) (m : Bool) (B : Int) (c : Cert)
    (h0 : check_win g = 0) (hd : check_draw g ≠ true) :
    ubCheck 0 g depth m B c = decide ((0 : Int) ≤ B) := by
  cases m <;> cases c <;>
    (rw [ubCheck, if_neg (by rw [h0]; exact lt_irrefl 0),
      if_neg (by rw [h0]; exact lt_irrefl 0), if_neg hd]) <;> (intros; simp_all)

/-- ubCheck at a live maximizer node with a branch certificate. -/
lemma ubCheck_succ_tb (f : Nat) (g : Board) (depth : Nat) (B : Int)
    (l : List (Nat × Cert)) (h0 : check_win g = 0) (hd : check_draw g ≠ true) :
    ubCheck (f + 1) g depth true B (Cert.branch l) =
      positions.all (fun i =>
        if getCell g i = label i then
          match lookupCert l i with
          | some sub => ubCheck f (setCell g i P1_MARK) (depth + 1) false B sub
          | none => false
        else true) := by
  rw [ubCheck, if_neg (by rw [h0]; exact lt_irrefl 0),
    if_neg (by rw [h0]; exact lt_irrefl 0), if_neg hd]
  rfl

/-- ubCheck at a live maximizer node rejects a pick certificate. -/
lemma ubCheck_succ_tp (f : Nat) (g : Board) (depth : Nat) (B : Int) (j : Nat)
    (sub : Cert) (h0 : check_win g = 0) (hd : check_draw g ≠ true) :
    ubCheck (f + 1) g depth true B (Cert.pick j sub) = false := by
  rw [ubCheck, if_neg (by rw [h0]; exact lt_irrefl 0),
    if_neg (by rw [h0]; exact lt_irrefl 0), if_neg hd]
  rfl

/-- ubCheck at a live maximizer node rejects a leaf certificate. -/
lemma ubCheck_succ_tl (f : Nat) (g : Board) (depth : Nat) (B : Int)
    (h0 : check_win g = 0) (hd : check_draw g ≠ true) :
    ubCheck (f + 1) g depth true B Cert.leaf = false := by
  rw [ubCheck, if_neg (by rw [h0]; exact lt_irrefl 0),
    if_neg (by rw [h0]; exact lt_irrefl 0), if_neg hd]
  · rfl
  · intro l hx; cases hx
  · intro j sub hx; cases hx

/-- ubCheck at a live minimizer node with a pick certificate. -/
lemma ubCheck_succ_fp (f : Nat) (g : Board) (depth : Nat) (B : Int) (j : Nat)
    (sub : Cert) (h0 : check_win g = 0) (hd : check_draw g ≠ true) :
    ubCheck (f + 1) g depth false B (Cert.pick j sub) =
      (decide (j < 9) && decide (getCell g j = label j) &&
        ubCheck f (setCell g j P2_MARK) (depth + 1) true B sub) := by
  rw [ubCheck, if_neg (by rw [h0]; exact lt_irrefl 0),
    if_neg (by rw [h0]; exact lt_irrefl 0), if_neg hd]
  rfl

/-- ubCheck at a live minimizer node rejects a branch certificate. -/
lemma ubCheck_succ_fb (f : Nat) (g : Board) (depth : Nat) (B : Int)
    (l : List (Nat × Cert)) (h0 : check_win g = 0) (hd : check_draw g ≠ true) :
    ubCheck (f + 1) g depth false B (Cert.branch l) = false := by
  rw [ubCheck, if_neg (by rw [h0]; exact lt_irrefl 0),
    if_neg (by rw [h0]; exact lt_irrefl 0), if_neg hd]
  rfl

/-- ubCheck at a live minimizer node rejects a leaf certificate. -/
lemma ubCheck_succ_fl (f : Nat) (g : Board) (depth : Nat) (B : Int)
    (h0 : check_win g = 0) (hd : check_draw g ≠ true) :
    ubCheck (f + 1) g depth false B Cert.leaf = false := by
  rw [ubCheck, if_neg (by rw [h0]; exact lt_irrefl 0),
    if_neg (by rw [h0]; exact lt_irrefl 0), if_neg hd]
  · rfl
  · intro l hx; cases hx
  · intro j sub hx; cases hx


/-- lbCheck at a maximizer win. -/
lemma lbCheck_win_pos (fuel : Nat) (g : Board) (depth : Nat) (m : Bool) (B : Int)
    (c : Cert) (h : 0 < check_win g) :
    lbCheck fuel g depth m B c = decide (B ≤ check_win g - depth) := by
  cases fuel <;> cases m <;> cases c <;> (rw [lbCheck, if_pos h]) <;> (intros; simp_all)

/-- lbCheck at a minimizer win. -/
lemma lbCheck_win_neg (fuel : Nat) (g : Board) (depth : Nat) (m : Bool) (B : Int)
    (c : Cert) (h : check_win g < 0) :
    lbCheck fuel g depth m B c = decide (B ≤ check_win g + depth) := by
  cases fuel <;> cases m <;> cases c <;>
    (rw [lbCheck, if_neg (not_lt.mpr h.le), if_pos h]) <;> (intros; simp_all)

/-- lbCheck at a draw. -/
lemma lbCheck_draw (fuel : Nat) (g : Board) (depth : Nat) (m : Bool) (B : Int)
    (c : Cert) (h0 : check_win g = 0) (hd : check_draw g = true) :
    lbCheck fuel g depth m B c = decide (B ≤ (0 : Int)) := by
  cases fuel <;> cases m <;> cases c <;>
    (rw [lbCheck, if_neg (by rw [h0]; exact lt_irrefl 0),
      if_neg (by rw [h0]; exact lt_irrefl 0), if_pos hd]) <;> (intros; simp_all)

/-- lbCheck with exhausted fuel at a live position. -/
lemma lbCheck_zero (g : Board) (depth : Nat) (m : Bool) (B : Int) (c : Cert)
    (h0 : check_win g = 0) (hd : check_draw g ≠ true) :
    lbCheck 0 g depth m B c = decide (B ≤ (0 : Int)) := by
  cases m <;> cases c <;>
    (rw [lbCheck, if_neg (by rw [h0]; exact lt_irrefl 0),
      if_neg (by rw [h0]; exact lt_irrefl 0), if_neg hd]) <;> (intros; simp_all)

/-- lbCheck at a live maximizer node with a pick certificate. -/
lemma lbCheck_succ_tp (f : Nat) (g : Board) (depth : Nat) (B : Int) (j : Nat)
    (sub : Cert) (h0 : check_win g = 0) (hd : check_draw g ≠ true) :
    lbCheck (f + 1) g depth true B (Cert.pick j sub) =
      (decide (j < 9) && decide (getCell g j = label j) &&
        lbCheck f (setCell g j P1_MARK) (depth + 1) false B sub) := by
  rw [lbCheck, if_neg (by rw [h0]; exact lt_irrefl 0),
    if_neg (by rw [h0]; exact lt_irrefl 0), if_neg hd]
  rfl

/-- lbCheck at a live maximizer node rejects a branch certificate. -/
lemma lbCheck_succ_tb (f : Nat) (g : Board) (depth : Nat) (B : Int)
    (l : List (Nat × Cert)) (h0 : check_win g = 0) (hd : check_draw g ≠ true) :
    lbCheck (f + 1) g depth true B (Cert.branch l) = false := by
  rw [lbCheck, if_neg (by rw [h0]; exact lt_irrefl 0),
    if_neg (by rw [h0]; exact lt_irrefl 0), if_neg hd]
  rfl

/-- lbCheck at a live maximizer node rejects a leaf certificate. -/
lemma lbCheck_succ_tl (f : Nat) (g : Board) (depth : Nat) (B : Int)
    (h0 : check_win g = 0) (hd : check_draw g ≠ true) :
    lbCheck (f + 1) g depth true B Cert.leaf = false := by
  rw [lbCheck, if_neg (by rw [h0]; exact lt_irrefl 0),
    if_neg (by rw [h0]; exact lt_irrefl 0), if_neg hd]
  · rfl
  all_goals (intros; rename_i hx; cases hx)

/-- lbCheck at a live minimizer node with a branch certificate. -/
lemma lbCheck_succ_fb (f : Nat) (g : Board) (depth : Nat) (B : Int)
    (l : List (Nat × Cert)) (h0 : check_win g = 0) (hd : check_draw g ≠ true) :
    lbCheck (f + 1) g depth false B (Cert.branch l) =
      positions.all (fun i =>
        if getCell g i = label i then
          match lookupCert l i with
          | some sub => lbCheck f (setCell g i P2_MARK) (depth + 1) true B sub
          | none => false
        else true) := by
  rw [lbCheck, if_neg (by rw [h0]; exact lt_irrefl 0),
    if_neg (by rw [h0]; exact lt_irrefl 0), if_neg hd]
  rfl

/-- lbCheck at a live minimizer node rejects a pick certificate. -/
lemma lbCheck_succ_fp (f : Nat) (g : Board) (depth : Nat) (B : Int) (j : Nat)
    (sub : Cert) (h0 : check_win g = 0) (hd : check_draw g ≠ true) :
    lbCheck (f + 1) g depth false B (Cert.pick j sub) = false := by
  rw [lbCheck, if_neg (by rw [h0]; exact lt_irrefl 0),
    if_neg (by rw [h0]; exact lt_irrefl 0), if_neg hd]
  rfl

/-- lbCheck at a live minimizer node rejects a leaf certificate. -/
lemma lbCheck_succ_fl (f : Nat) (g : Board) (depth : Nat) (B : Int)
    (h0 : check_win g = 0) (hd : check_draw g ≠ true) :
    lbCheck (f + 1) g depth false B Cert.leaf = false := by
  rw [lbCheck, if_neg (by rw [h0]; exact lt_irrefl 0),
    if_neg (by rw [h0]; exact lt_irrefl 0), if_neg hd]
  · rfl
  all_goals (intros; rename_i hx; cases hx)


/-- Soundness of ubCheck: an accepted certificate really bounds the minimax
score from above, for any bound at least the INT32_MIN seed. -/
theorem ubCheck_sound : ∀ (fuel : Nat) (c : Cert) (g : Board) (depth : Nat)
    (m : Bool) (B : Int), INT32_MIN ≤ B → ubCheck fuel g depth m B c = true →
    (minimax fuel g depth m).1 ≤ B := by
  intro fuel
  induction fuel with
  | zero =>
    intro c g depth m B hB hch
    rcases check_win_cases g with h | h | h
    · rw [ubCheck_win_pos _ _ _ _ _ _ (by rw [h]; norm_num)] at hch
      rw [minimax_win_pos 0 g depth m (by rw [h]; norm_num)]
      simpa using of_decide_eq_true hch
    · by_cases hd : check_draw g = true
      · rw [ubCheck_draw _ _ _ _ _ _ h hd] at hch
        rw [minimax_draw 0 g depth m h hd]
        simpa using of_decide_eq_true hch
      · rw [ubCheck_zero _ _ _ _ _ h hd] at hch
        rw [minimax_zero g depth m h hd]
        simpa using of_decide_eq_true hch
    · rw [ubCheck_win_neg _ _ _ _ _ _ (by rw [h]; norm_num)] at hch
      rw [minimax_win_neg 0 g depth m (by rw [h]; norm_num)]
      simpa using of_decide_eq_true hch
  | succ f ih =>
    intro c g depth m B hB hch
    rcases check_win_cases g with h | h | h
    · rw [ubCheck_win_pos _ _ _ _ _ _ (by rw [h]; norm_num)] at hch
      rw [minimax_win_pos (f + 1) g depth m (by rw [h]; norm_num)]
      simpa using of_decide_eq_true hch
    · by_cases hd : check_draw g = true
      · rw [ubCheck_draw _ _ _ _ _ _ h hd] at hch
        rw [minimax_draw (f + 1) g depth m h hd]
        simpa using of_decide_eq_true hch
      · rw [minimax_succ f g depth m h hd]
        cases m
        · cases c with
          | leaf =>
            rw [ubCheck_succ_fl f g depth B h hd] at hch
            exact absurd hch (by simp)
          | branch l =>
            rw [ubCheck_succ_fb f g depth B l h hd] at hch
            exact absurd hch (by simp)
          | pick j sub =>
            rw [ubCheck_succ_fp f g depth B j sub h hd] at hch
            simp only [Bool.and_eq_true, decide_eq_true_eq] at hch
            obtain ⟨⟨hj9, hcell⟩, hsub⟩ := hch
            apply foldl_mmStep_min_le _
              (fun b => minimax_snd f b (depth + 1) (!false)) B positions
            left
            refine ⟨j, mem_positions j hj9, by simpa using hcell, ?_⟩
            simpa using ih sub (setCell g j P2_MARK) (depth + 1) true B hB hsub
        · cases c with
          | leaf =>
            rw [ubCheck_succ_tl f g depth B h hd] at hch
            exact absurd hch (by simp)
          | pick j sub =>
            rw [ubCheck_succ_tp f g depth B j sub h hd] at hch
            exact absurd hch (by simp)
          | branch l =>
            rw [ubCheck_succ_tb f g depth B l h hd, List.all_eq_true] at hch
            apply foldl_mmStep_max_le _
              (fun b => minimax_snd f b (depth + 1) (!true)) B positions
            · intro i hi hcell
              have hh := hch i hi
              rw [if_pos (by simpa using hcell)] at hh
              cases hlook : lookupCert l i with
              | none => rw [hlook] at hh; exact absurd hh (by simp)
              | some sub =>
                rw [hlook] at hh
                simpa using ih sub (setCell g i P1_MARK) (depth + 1) false B hB hh
            · simpa using hB
    · rw [ubCheck_win_neg _ _ _ _ _ _ (by rw [h]; norm_num)] at hch
      rw [minimax_win_neg (f + 1) g depth m (by rw [h]; norm_num)]
      simpa using of_decide_eq_true hch

/-- Soundness of lbCheck: an accepted certificate really bounds the minimax
score from below, for any bound at most the INT16_MAX seed. -/
theorem lbCheck_sound : ∀ (fuel : Nat) (c : Cert) (g : Board) (depth : Nat)
    (m : Bool) (B : Int), B ≤ INT16_MAX → lbCheck fuel g depth m B c = true →
    B ≤ (minimax fuel g depth m).1 := by
  intro fuel
  induction fuel with
  | zero =>
    intro c g depth m B hB hch
    rcases check_win_cases g with h | h | h
    · rw [lbCheck_win_pos _ _ _ _ _ _ (by rw [h]; norm_num)] at hch
      rw [minimax_win_pos 0 g depth m (by rw [h]; norm_num)]
      simpa using of_decide_eq_true hch
    · by_cases hd : check_draw g = true
      · rw [lbCheck_draw _ _ _ _ _ _ h hd] at hch
        rw [minimax_draw 0 g depth m h hd]
        simpa using of_decide_eq_true hch
      · rw [lbCheck_zero _ _ _ _ _ h hd] at hch
        rw [minimax_zero g depth m h hd]
        simpa using of_decide_eq_true hch
    · rw [lbCheck_win_neg _ _ _ _ _ _ (by rw [h]; norm_num)] at hch
      rw [minimax_win_neg 0 g depth m (by rw [h]; norm_num)]
      simpa using of_decide_eq_true hch
  | succ f ih =>
    intro c g depth m B hB hch
    rcases check_win_cases g with h | h | h
    · rw [lbCheck_win_pos _ _ _ _ _ _ (by rw [h]; norm_num)] at hch
      rw [minimax_win_pos (f + 1) g depth m (by rw [h]; norm_num)]
      simpa using of_decide_eq_true hch
    · by_cases hd : check_draw g = true
      · rw [lbCheck_draw _ _ _ _ _ _ h hd] at hch
        rw [minimax_draw (f + 1) g depth m h hd]
        simpa using of_decide_eq_true hch
      · rw [minimax_succ f g depth m h hd]
        cases m
        · cases c with
          | leaf =>
            rw [lbCheck_succ_fl f g depth B h hd] at hch
            exact absurd hch (by simp)
          | pick j sub =>
            rw [lbCheck_succ_fp f g depth B j sub h hd] at hch
            exact absurd hch (by simp)
          | branch l =>
            rw [lbCheck_succ_fb f g depth B l h hd, List.all_eq_true] at hch
            apply foldl_mmStep_min_ge _
              (fun b => minimax_snd f b (depth + 1) (!false)) B positions
            · intro i hi hcell
              have hh := hch i hi
              rw [if_pos (by simpa using hcell)] at hh
              cases hlook : lookupCert l i with
              | none => rw [hlook] at hh; exact absurd hh (by simp)
              | some sub =>
                rw [hlook] at hh
                simpa using ih sub (setCell g i P2_MARK) (depth + 1) true B hB hh
            · simpa using hB
        · cases c with
          | leaf =>
            rw [lbCheck_succ_tl f g depth B h hd] at hch
            exact absurd hch (by simp)
          | branch l =>
            rw [lbCheck_succ_tb f g depth B l h hd] at hch
            exact absurd hch (by simp)
          | pick j sub =>
            rw [lbCheck_succ_tp f g depth B j sub h hd] at hch
            simp only [Bool.and_eq_true, decide_eq_true_eq] at hch
            obtain ⟨⟨hj9, hcell⟩, hsub⟩ := hch
            apply foldl_mmStep_max_ge _
              (fun b => minimax_snd f b (depth + 1) (!true)) B positions
            left
            refine ⟨j, mem_positions j hj9, by simpa using hcell, ?_⟩
            simpa using ih sub (setCell g j P1_MARK) (depth + 1) false B hB hsub
    · rw [lbCheck_win_neg _ _ _ _ _ _ (by rw [h]; norm_num)] at hch
      rw [minimax_win_neg (f + 1) g depth m (by rw [h]; norm_num)]
      simpa using of_decide_eq_true hch


/-! Certificates (generated from the game tree) bounding the nine opening
moves of find_best_move on the freshly initialized board: the reply lines
below witness that opening at cell 0 guarantees Player 1 at least a draw and
that no opening at cells 1..8 scores better than a draw. -/

/-- Certificate that cell 1's opening reply line keeps Player 1 at least at a draw. -/
def certLB0 : Cert := (Cert.branch [(1, (Cert.pick 2 (Cert.branch [(3, (Cert.pick 4 (Cert.branch [(5, (Cert.pick 6 Cert.leaf)), (6, (Cert.pick 5 (Cert.branch [(7, (Cert.pick 8 Cert.leaf)), (8, (Cert.pick 7 Cert.leaf))]))), (7, (Cert.pick 5 (Cert.branch [(6, (Cert.pick 8 Cert.leaf)), (8, (Cert.pick 6 Cert.leaf))]))), (8, (Cert.pick 5 (Cert.branch [(6, (Cert.pick 7 Cert.leaf)), (7, (Cert.pick 6 Cert.leaf))])))]))), (4, (Cert.pick 7 (Cert.branch [(3, (Cert.pick 5 (Cert.branch [(6, (Cert.pick 8 Cert.leaf)), (8, (Cert.pick 6 Cert.leaf))]))), (5, (Cert.pick 3 (Cert.branch [(6, (Cert.pick 8 Cert.leaf)), (8, (Cert.pick 6 Cert.leaf))]))), (6, (Cert.pick 3 (Cert.branch [(5, (Cert.pick 8 Cert.leaf)), (8, (Cert.pick 5 Cert.leaf))]))), (8, (Cert.pick 3 (Cert.branch [(5, (Cert.pick 6 Cert.leaf)), (6, (Cert.pick 5 Cert.leaf))])))]))), (5, (Cert.pick 3 (Cert.branch [(4, (Cert.pick 6 Cert.leaf)), (6, (Cert.pick 4 (Cert.branch [(7, (Cert.pick 8 Cert.leaf)), (8, (Cert.pick 7 Cert.leaf))]))), (7, (Cert.pick 4 (Cert.branch [(6, (Cert.pick 8 Cert.leaf)), (8, (Cert.pick 6 Cert.leaf))]))), (8, (Cert.pick 4 (Cert.branch [(6, (Cert.pick 7 Cert.leaf)), (7, (Cert.pick 6 Cert.leaf))])))]))), (6, (Cert.pick 4 (Cert.branch [(3, (Cert.pick 5 (Cert.branch [(7, (Cert.pick 8 Cert.leaf)), (8, (Cert.pick 7 Cert.leaf))]))), (5, (Cert.pick 3 (Cert.branch [(7, (Cert.pick 8 Cert.leaf)), (8, (Cert.pick 7 Cert.leaf))]))), (7, (Cert.pick 8 Cert.leaf)), (8, (Cert.pick 7 (Cert.branch [(3, (Cert.pick 5 Cert.leaf)), (5, (Cert.pick 3 Cert.leaf))])))]))), (7, (Cert.pick 4 (Cert.branch [(3, (Cert.pick 5 (Cert.branch [(6, (Cert.pick 8 Cert.leaf)), (8, (Cert.pick 6 Cert.leaf))]))), (5, (Cert.pick 3 (Cert.branch [(6, (Cert.pick 8 Cert.leaf)), (8, (Cert.pick 6 Cert.leaf))]))), (6, (Cert.pick 8 Cert.leaf)), (8, (Cert.pick 6 Cert.leaf))]))), (8, (Cert.pick 3 (Cert.branch [(4, (Cert.pick 6 Cert.leaf)), (5, (Cert.pick 4 (Cert.branch [(6, (Cert.pick 7 Cert.leaf)), (7, (Cert.pick 6 Cert.leaf))]))), (6, (Cert.pick 7 (Cert.branch [(4, (Cert.pick 5 Cert.leaf)), (5, (Cert.pick 4 Cert.leaf))]))), (7, (Cert.pick 6 Cert.leaf))])))]))), (2, (Cert.pick 3 (Cert.branch [(1, (Cert.pick 4 (Cert.branch [(5, (Cert.pick 6 Cert.leaf)), (6, (Cert.pick 5 Cert.leaf)), (7, (Cert.pick 5 Cert.leaf)), (8, (Cert.pick 5 Cert.leaf))]))), (4, (Cert.pick 6 Cert.leaf)), (5, (Cert.pick 6 Cert.leaf)), (6, (Cert.pick 4 (Cert.branch [(1, (Cert.pick 5 Cert.leaf)), (5, (Cert.pick 8 Cert.leaf)), (7, (Cert.pick 5 Cert.leaf)), (8, (Cert.pick 5 Cert.leaf))]))), (7, (Cert.pick 4 (Cert.branch [(1, (Cert.pick 5 Cert.leaf)), (5, (Cert.pick 6 Cert.leaf)), (6, (Cert.pick 5 Cert.leaf)), (8, (Cert.pick 5 Cert.leaf))]))), (8, (Cert.pick 5 (Cert.branch [(1, (Cert.pick 4 Cert.leaf)), (4, (Cert.pick 6 Cert.leaf)), (6, (Cert.pick 4 Cert.leaf)), (7, (Cert.pick 4 Cert.leaf))])))]))), (3, (Cert.pick 1 (Cert.branch [(2, (Cert.pick 4 (Cert.branch [(5, (Cert.pick 7 Cert.leaf)), (6, (Cert.pick 5 (Cert.branch [(7, (Cert.pick 8 Cert.leaf)), (8, (Cert.pick 7 Cert.leaf))]))), (7, (Cert.pick 5 (Cert.branch [(6, (Cert.pick 8 Cert.leaf)), (8, (Cert.pick 6 Cert.leaf))]))), (8, (Cert.pick 5 (Cert.branch [(6, (Cert.pick 7 Cert.leaf)), (7, (Cert.pick 6 Cert.leaf))])))]))), (4, (Cert.pick 2 Cert.leaf)), (5, (Cert.pick 2 Cert.leaf)), (6, (Cert.pick 2 Cert.leaf)), (7, (Cert.pick 2 Cert.leaf)), (8, (Cert.pick 2 Cert.leaf))]))), (4, (Cert.pick 1 (Cert.branch [(2, (Cert.pick 6 (Cert.branch [(3, (Cert.pick 5 (Cert.branch [(7, (Cert.pick 8 Cert.leaf)), (8, (Cert.pick 7 Cert.leaf))]))), (5, (Cert.pick 3 Cert.leaf)), (7, (Cert.pick 3 Cert.leaf)), (8, (Cert.pick 3 Cert.leaf))]))), (3, (Cert.pick 2 Cert.leaf)), (5, (Cert.pick 2 Cert.leaf)), (6, (Cert.pick 2 Cert.leaf)), (7, (Cert.pick 2 Cert.leaf)), (8, (Cert.pick 2 Cert.leaf))]))), (5, (Cert.pick 2 (Cert.branch [(1, (Cert.pick 3 (Cert.branch [(4, (Cert.pick 6 Cert.leaf)), (6, (Cert.pick 4 (Cert.branch [(7, (Cert.pick 8 Cert.leaf)), (8, (Cert.pick 7 Cert.leaf))]))), (7, (Cert.pick 4 (Cert.branch [(6, (Cert.pick 8 Cert.leaf)), (8, (Cert.pick 6 Cert.leaf))]))), (8, (Cert.pick 4 (Cert.branch [(6, (Cert.pick 7 Cert.leaf)), (7, (Cert.pick 6 Cert.leaf))])))]))), (3, (Cert.pick 1 Cert.leaf)), (4, (Cert.pick 1 Cert.leaf)), (6, (Cert.pick 1 Cert.leaf)), (7, (Cert.pick 1 Cert.leaf)), (8, (Cert.pick 1 Cert.leaf))]))), (6, (Cert.pick 1 (Cert.branch [(2, (Cert.pick 4 (Cert.branch [(3, (Cert.pick 5 (Cert.branch [(7, (Cert.pick 8 Cert.leaf)), (8, (Cert.pick 7 Cert.leaf))]))), (5, (Cert.pick 7 Cert.leaf)), (7, (Cert.pick 8 Cert.leaf)), (8, (Cert.pick 7 Cert.leaf))]))), (3, (Cert.pick 2 Cert.leaf)), (4, (Cert.pick 2 Cert.leaf)), (5, (Cert.pick 2 Cert.leaf)), (7, (Cert.pick 2 Cert.leaf)), (8, (Cert.pick 2 Cert.leaf))]))), (7, (Cert.pick 1 (Cert.branch [(2, (Cert.pick 6 (Cert.branch [(3, (Cert.pick 4 (Cert.branch [(5, (Cert.pick 8 Cert.leaf)), (8, (Cert.pick 5 Cert.leaf))]))), (4, (Cert.pick 3 Cert.leaf)), (5, (Cert.pick 3 Cert.leaf)), (8, (Cert.pick 3 Cert.leaf))]))), (3, (Cert.pick 2 Cert.leaf)), (4, (Cert.pick 2 Cert.leaf)), (5, (Cert.pick 2 Cert.leaf)), (6, (Cert.pick 2 Cert.leaf)), (8, (Cert.pick 2 Cert.leaf))]))), (8, (Cert.pick 2 (Cert.branch [(1, (Cert.pick 3 (Cert.branch [(4, (Cert.pick 6 Cert.leaf)), (5, (Cert.pick 4 (Cert.branch [(6, (Cert.pick 7 Cert.leaf)), (7, (Cert.pick 6 Cert.leaf))]))), (6, (Cert.pick 7 (Cert.branch [(4, (Cert.pick 5 Cert.leaf)), (5, (Cert.pick 4 Cert.leaf))]))), (7, (Cert.pick 6 Cert.leaf))]))), (3, (Cert.pick 1 Cert.leaf)), (4, (Cert.pick 1 Cert.leaf)), (5, (Cert.pick 1 Cert.leaf)), (6, (Cert.pick 1 Cert.leaf)), (7, (Cert.pick 1 Cert.leaf))])))])
/-- Certificate bounding the opening move at cell 1 to at most a draw. -/
def certUB1 : Cert := (Cert.pick 0 (Cert.branch [(2, (Cert.pick 3 (Cert.branch [(4, (Cert.pick 6 Cert.leaf)), (5, (Cert.pick 6 Cert.leaf)), (6, (Cert.pick 4 (Cert.branch [(5, (Cert.pick 8 Cert.leaf)), (7, (Cert.pick 5 Cert.leaf)), (8, (Cert.pick 5 Cert.leaf))]))), (7, (Cert.pick 4 (Cert.branch [(5, (Cert.pick 6 Cert.leaf)), (6, (Cert.pick 5 Cert.leaf)), (8, (Cert.pick 5 Cert.leaf))]))), (8, (Cert.pick 5 (Cert.branch [(4, (Cert.pick 6 Cert.leaf)), (6, (Cert.pick 4 Cert.leaf)), (7, (Cert.pick 4 Cert.leaf))])))]))), (3, (Cert.pick 4 (Cert.branch [(2, (Cert.pick 5 (Cert.branch [(6, (Cert.pick 7 (Cert.branch [(8, Cert.leaf)]))), (7, (Cert.pick 6 (Cert.branch [(8, Cert.leaf)]))), (8, (Cert.pick 6 (Cert.branch [(7, Cert.leaf)])))]))), (5, (Cert.pick 2 (Cert.branch [(6, (Cert.pick 7 (Cert.branch [(8, Cert.leaf)]))), (7, (Cert.pick 6 Cert.leaf)), (8, (Cert.pick 6 Cert.leaf))]))), (6, (Cert.pick 2 (Cert.branch [(5, (Cert.pick 7 (Cert.branch [(8, Cert.leaf)]))), (7, (Cert.pick 8 Cert.leaf)), (8, (Cert.pick 7 (Cert.branch [(5, Cert.leaf)])))]))), (7, (Cert.pick 2 (Cert.branch [(5, (Cert.pick 6 Cert.leaf)), (6, (Cert.pick 8 Cert.leaf)), (8, (Cert.pick 6 Cert.leaf))]))), (8, (Cert.pick 2 (Cert.branch [(5, (Cert.pick 6 Cert.leaf)), (6, (Cert.pick 7 (Cert.branch [(5, Cert.leaf)]))), (7, (Cert.pick 6 Cert.leaf))])))]))), (4, (Cert.pick 7 (Cert.branch [(2, (Cert.pick 6 (Cert.branch [(3, (Cert.pick 5 (Cert.branch [(8, Cert.leaf)]))), (5, (Cert.pick 3 Cert.leaf)), (8, (Cert.pick 3 Cert.leaf))]))), (3, (Cert.pick 5 (Cert.branch [(2, (Cert.pick 6 (Cert.branch [(8, Cert.leaf)]))), (6, (Cert.pick 2 (Cert.branch [(8, Cert.leaf)]))), (8, (Cert.pick 2 (Cert.branch [(6, Cert.leaf)])))]))), (5, (Cert.pick 3 (Cert.branch [(2, (Cert.pick 6 Cert.leaf)), (6, (Cert.pick 2 (Cert.branch [(8, Cert.leaf)]))), (8, (Cert.pick 2 (Cert.branch [(6, Cert.leaf)])))]))), (6, (Cert.pick 2 (Cert.branch [(3, (Cert.pick 5 (Cert.branch [(8, Cert.leaf)]))), (5, (Cert.pick 3 (Cert.branch [(8, Cert.leaf)]))), (8, (Cert.pick 3 (Cert.branch [(5, Cert.leaf)])))]))), (8, (Cert.pick 2 (Cert.branch [(3, (Cert.pick 5 (Cert.branch [(6, Cert.leaf)]))), (5, (Cert.pick 3 (Cert.branch [(6, Cert.leaf)]))), (6, (Cert.pick 3 (Cert.branch [(5, Cert.leaf)])))])))]))), (5, (Cert.pick 4 (Cert.branch [(2, (Cert.pick 8 Cert.leaf)), (3, (Cert.pick 2 (Cert.branch [(6, (Cert.pick 7 (Cert.branch [(8, Cert.leaf)]))), (7, (Cert.pick 6 Cert.leaf)), (8, (Cert.pick 6 Cert.leaf))]))), (6, (Cert.pick 2 (Cert.branch [(3, (Cert.pick 7 (Cert.branch [(8, Cert.leaf)]))), (7, (Cert.pick 8 Cert.leaf)), (8, (Cert.pick 7 (Cert.branch [(3, Cert.leaf)])))]))), (7, (Cert.pick 2 (Cert.branch [(3, (Cert.pick 6 Cert.leaf)), (6, (Cert.pick 8 Cert.leaf)), (8, (Cert.pick 6 Cert.leaf))]))), (8, (Cert.pick 2 (Cert.branch [(3, (Cert.pick 6 Cert.leaf)), (6, (Cert.pick 7 (Cert.branch [(3, Cert.leaf)]))), (7, (Cert.pick 6 Cert.leaf))])))]))), (6, (Cert.pick 4 (Cert.branch [(2, (Cert.pick 3 (Cert.branch [(5, (Cert.pick 8 Cert.leaf)), (7, (Cert.pick 5 Cert.leaf)), (8, (Cert.pick 5 Cert.leaf))]))), (3, (Cert.pick 2 (Cert.branch [(5, (Cert.pick 7 (Cert.branch [(8, Cert.leaf)]))), (7, (Cert.pick 8 Cert.leaf)), (8, (Cert.pick 7 (Cert.branch [(5, Cert.leaf)])))]))), (5, (Cert.pick 2 (Cert.branch [(3, (Cert.pick 7 (Cert.branch [(8, Cert.leaf)]))), (7, (Cert.pick 8 Cert.leaf)), (8, (Cert.pick 7 (Cert.branch [(3, Cert.leaf)])))]))), (7, (Cert.pick 8 Cert.leaf)), (8, (Cert.pick 7 (Cert.branch [(2, (Cert.pick 5 (Cert.branch [(3, Cert.leaf)]))), (3, (Cert.pick 2 (Cert.branch [(5, Cert.leaf)]))), (5, (Cert.pick 2 (Cert.branch [(3, Cert.leaf)])))])))]))), (7, (Cert.pick 4 (Cert.branch [(2, (Cert.pick 3 (Cert.branch [(5, (Cert.pick 6 Cert.leaf)), (6, (Cert.pick 5 Cert.leaf)), (8, (Cert.pick 5 Cert.leaf))]))), (3, (Cert.pick 2 (Cert.branch [(5, (Cert.pick 6 Cert.leaf)), (6, (Cert.pick 8 Cert.leaf)), (8, (Cert.pick 6 Cert.leaf))]))), (5, (Cert.pick 2 (Cert.branch [(3, (Cert.pick 6 Cert.leaf)), (6, (Cert.pick 8 Cert.leaf)), (8, (Cert.pick 6 Cert.leaf))]))), (6, (Cert.pick 8 Cert.leaf)), (8, (Cert.pick 6 (Cert.branch [(2, (Cert.pick 3 Cert.leaf)), (3, (Cert.pick 2 Cert.leaf)), (5, (Cert.pick 2 Cert.leaf))])))]))), (8, (Cert.pick 4 (Cert.branch [(2, (Cert.pick 5 (Cert.branch [(3, (Cert.pick 6 (Cert.branch [(7, Cert.leaf)]))), (6, (Cert.pick 3 Cert.leaf)), (7, (Cert.pick 3 Cert.leaf))]))), (3, (Cert.pick 2 (Cert.branch [(5, (Cert.pick 6 Cert.leaf)), (6, (Cert.pick 7 (Cert.branch [(5, Cert.leaf)]))), (7, (Cert.pick 6 Cert.leaf))]))), (5, (Cert.pick 2 (Cert.branch [(3, (Cert.pick 6 Cert.leaf)), (6, (Cert.pick 7 (Cert.branch [(3, Cert.leaf)]))), (7, (Cert.pick 6 Cert.leaf))]))), (6, (Cert.pick 7 (Cert.branch [(2, (Cert.pick 5 (Cert.branch [(3, Cert.leaf)]))), (3, (Cert.pick 2 (Cert.branch [(5, Cert.leaf)]))), (5, (Cert.pick 2 (Cert.branch [(3, Cert.leaf)])))]))), (7, (Cert.pick 6 (Cert.branch [(2, (Cert.pick 3 Cert.leaf)), (3, (Cert.pick 2 Cert.leaf)), (5, (Cert.pick 2 Cert.leaf))])))])))]))
/-- Certificate bounding the opening move at cell 2 to at most a draw. -/
def certUB2 : Cert := (Cert.pick 4 (Cert.branch [(0, (Cert.pick 1 (Cert.branch [(3, (Cert.pick 6 (Cert.branch [(5, (Cert.pick 7 Cert.leaf)), (7, (Cert.pick 5 (Cert.branch [(8, Cert.leaf)]))), (8, (Cert.pick 5 (Cert.branch [(7, Cert.leaf)])))]))), (5, (Cert.pick 7 Cert.leaf)), (6, (Cert.pick 3 (Cert.branch [(5, (Cert.pick 7 Cert.leaf)), (7, (Cert.pick 5 Cert.leaf)), (8, (Cert.pick 5 Cert.leaf))]))), (7, (Cert.pick 3 (Cert.branch [(5, (Cert.pick 8 (Cert.branch [(6, Cert.leaf)]))), (6, (Cert.pick 5 Cert.leaf)), (8, (Cert.pick 5 Cert.leaf))]))), (8, (Cert.pick 5 (Cert.branch [(3, (Cert.pick 6 (Cert.branch [(7, Cert.leaf)]))), (6, (Cert.pick 3 Cert.leaf)), (7, (Cert.pick 3 Cert.leaf))])))]))), (1, (Cert.pick 0 (Cert.branch [(3, (Cert.pick 5 (Cert.branch [(6, (Cert.pick 7 (Cert.branch [(8, Cert.leaf)]))), (7, (Cert.pick 6 (Cert.branch [(8, Cert.leaf)]))), (8, (Cert.pick 6 (Cert.branch [(7, Cert.leaf)])))]))), (5, (Cert.pick 8 Cert.leaf)), (6, (Cert.pick 3 (Cert.branch [(5, (Cert.pick 8 Cert.leaf)), (7, (Cert.pick 5 Cert.leaf)), (8, (Cert.pick 5 Cert.leaf))]))), (7, (Cert.pick 3 (Cert.branch [(5, (Cert.pick 6 Cert.leaf)), (6, (Cert.pick 5 Cert.leaf)), (8, (Cert.pick 5 Cert.leaf))]))), (8, (Cert.pick 5 (Cert.branch [(3, (Cert.pick 6 (Cert.branch [(7, Cert.leaf)]))), (6, (Cert.pick 3 Cert.leaf)), (7, (Cert.pick 3 Cert.leaf))])))]))), (3, (Cert.pick 0 (Cert.branch [(1, (Cert.pick 5 (Cert.branch [(6, (Cert.pick 7 (Cert.branch [(8, Cert.leaf)]))), (7, (Cert.pick 6 (Cert.branch [(8, Cert.leaf)]))), (8, (Cert.pick 6 (Cert.branch [(7, Cert.leaf)])))]))), (5, (Cert.pick 8 Cert.leaf)), (6, (Cert.pick 1 (Cert.branch [(5, (Cert.pick 7 Cert.leaf)), (7, (Cert.pick 8 Cert.leaf)), (8, (Cert.pick 7 Cert.leaf))]))), (7, (Cert.pick 5 (Cert.branch [(1, (Cert.pick 6 (Cert.branch [(8, Cert.leaf)]))), (6, (Cert.pick 8 Cert.leaf)), (8, (Cert.pick 6 (Cert.branch [(1, Cert.leaf)])))]))), (8, (Cert.pick 5 (Cert.branch [(1, (Cert.pick 6 (Cert.branch [(7, Cert.leaf)]))), (6, (Cert.pick 7 (Cert.branch [(1, Cert.leaf)]))), (7, (Cert.pick 6 (Cert.branch [(1, Cert.leaf)])))])))]))), (5, (Cert.pick 8 (Cert.branch [(0, (Cert.pick 1 (Cert.branch [(3, (Cert.pick 6 (Cert.branch [(7, Cert.leaf)]))), (6, (Cert.pick 3 (Cert.branch [(7, Cert.leaf)]))), (7, (Cert.pick 3 (Cert.branch [(6, Cert.leaf)])))]))), (1, (Cert.pick 0 Cert.leaf)), (3, (Cert.pick 0 Cert.leaf)), (6, (Cert.pick 0 Cert.leaf)), (7, (Cert.pick 0 Cert.leaf))]))), (6, (Cert.pick 1 (Cert.branch [(0, (Cert.pick 3 (Cert.branch [(5, (Cert.pick 7 Cert.leaf)), (7, (Cert.pick 5 Cert.leaf)), (8, (Cert.pick 5 Cert.leaf))]))), (3, (Cert.pick 0 (Cert.branch [(5, (Cert.pick 7 Cert.leaf)), (7, (Cert.pick 8 Cert.leaf)), (8, (Cert.pick 7 Cert.leaf))]))), (5, (Cert.pick 7 Cert.leaf)), (7, (Cert.pick 8 (Cert.branch [(0, (Cert.pick 3 (Cert.branch [(5, Cert.leaf)]))), (3, (Cert.pick 0 Cert.leaf)), (5, (Cert.pick 0 Cert.leaf))]))), (8, (Cert.pick 7 Cert.leaf))]))), (7, (Cert.pick 3 (Cert.branch [(0, (Cert.pick 1 (Cert.branch [(5, (Cert.pick 8 (Cert.branch [(6, Cert.leaf)]))), (6, (Cert.pick 5 Cert.leaf)), (8, (Cert.pick 5 Cert.leaf))]))), (1, (Cert.pick 0 (Cert.branch [(5, (Cert.pick 6 Cert.leaf)), (6, (Cert.pick 5 Cert.leaf)), (8, (Cert.pick 5 Cert.leaf))]))), (5, (Cert.pick 8 (Cert.branch [(0, (Cert.pick 1 (Cert.branch [(6, Cert.leaf)]))), (1, (Cert.pick 0 Cert.leaf)), (6, (Cert.pick 0 Cert.leaf))]))), (6, (Cert.pick 5 Cert.leaf)), (8, (Cert.pick 5 Cert.leaf))]))), (8, (Cert.pick 5 (Cert.branch [(0, (Cert.pick 1 (Cert.branch [(3, (Cert.pick 6 (Cert.branch [(7, Cert.leaf)]))), (6, (Cert.pick 3 Cert.leaf)), (7, (Cert.pick 3 Cert.leaf))]))), (1, (Cert.pick 0 (Cert.branch [(3, (Cert.pick 6 (Cert.branch [(7, Cert.leaf)]))), (6, (Cert.pick 3 Cert.leaf)), (7, (Cert.pick 3 Cert.leaf))]))), (3, (Cert.pick 0 (Cert.branch [(1, (Cert.pick 6 (Cert.branch [(7, Cert.leaf)]))), (6, (Cert.pick 7 (Cert.branch [(1, Cert.leaf)]))), (7, (Cert.pick 6 (Cert.branch [(1, Cert.leaf)])))]))), (6, (Cert.pick 3 Cert.leaf)), (7, (Cert.pick 3 Cert.leaf))])))]))
/-- Certificate bounding the opening move at cell 3 to at most a draw. -/
def certUB3 : Cert := (Cert.pick 0 (Cert.branch [(1, (Cert.pick 4 (Cert.branch [(2, (Cert.pick 5 (Cert.branch [(6, (Cert.pick 7 (Cert.branch [(8, Cert.leaf)]))), (7, (Cert.pick 6 (Cert.branch [(8, Cert.leaf)]))), (8, (Cert.pick 6 (Cert.branch [(7, Cert.leaf)])))]))), (5, (Cert.pick 2 (Cert.branch [(6, (Cert.pick 7 (Cert.branch [(8, Cert.leaf)]))), (7, (Cert.pick 6 Cert.leaf)), (8, (Cert.pick 6 Cert.leaf))]))), (6, (Cert.pick 2 (Cert.branch [(5, (Cert.pick 7 (Cert.branch [(8, Cert.leaf)]))), (7, (Cert.pick 8 Cert.leaf)), (8, (Cert.pick 7 (Cert.branch [(5, Cert.leaf)])))]))), (7, (Cert.pick 2 (Cert.branch [(5, (Cert.pick 6 Cert.leaf)), (6, (Cert.pick 8 Cert.leaf)), (8, (Cert.pick 6 Cert.leaf))]))), (8, (Cert.pick 2 (Cert.branch [(5, (Cert.pick 6 Cert.leaf)), (6, (Cert.pick 7 (Cert.branch [(5, Cert.leaf)]))), (7, (Cert.pick 6 Cert.leaf))])))]))), (2, (Cert.pick 4 (Cert.branch [(1, (Cert.pick 5 (Cert.branch [(6, (Cert.pick 7 (Cert.branch [(8, Cert.leaf)]))), (7, (Cert.pick 6 (Cert.branch [(8, Cert.leaf)]))), (8, (Cert.pick 6 (Cert.branch [(7, Cert.leaf)])))]))), (5, (Cert.pick 8 Cert.leaf)), (6, (Cert.pick 1 (Cert.branch [(5, (Cert.pick 7 Cert.leaf)), (7, (Cert.pick 8 Cert.leaf)), (8, (Cert.pick 7 Cert.leaf))]))), (7, (Cert.pick 5 (Cert.branch [(1, (Cert.pick 6 (Cert.branch [(8, Cert.leaf)]))), (6, (Cert.pick 8 Cert.leaf)), (8, (Cert.pick 6 (Cert.branch [(1, Cert.leaf)])))]))), (8, (Cert.pick 5 (Cert.branch [(1, (Cert.pick 6 (Cert.branch [(7, Cert.leaf)]))), (6, (Cert.pick 7 (Cert.branch [(1, Cert.leaf)]))), (7, (Cert.pick 6 (Cert.branch [(1, Cert.leaf)])))])))]))), (4, (Cert.pick 5 (Cert.branch [(1, (Cert.pick 7 (Cert.branch [(2, (Cert.pick 6 (Cert.branch [(8, Cert.leaf)]))), (6, (Cert.pick 2 (Cert.branch [(8, Cert.leaf)]))), (8, (Cert.pick 2 (Cert.branch [(6, Cert.leaf)])))]))), (2, (Cert.pick 6 (Cert.branch [(1, (Cert.pick 7 (Cert.branch [(8, Cert.leaf)]))), (7, (Cert.pick 1 (Cert.branch [(8, Cert.leaf)]))), (8, (Cert.pick 1 (Cert.branch [(7, Cert.leaf)])))]))), (6, (Cert.pick 2 (Cert.branch [(1, (Cert.pick 7 (Cert.branch [(8, Cert.leaf)]))), (7, (Cert.pick 1 Cert.leaf)), (8, (Cert.pick 1 Cert.leaf))]))), (7, (Cert.pick 1 (Cert.branch [(2, (Cert.pick 6 (Cert.branch [(8, Cert.leaf)]))), (6, (Cert.pick 2 Cert.leaf)), (8, (Cert.pick 2 Cert.leaf))]))), (8, (Cert.pick 1 (Cert.branch [(2, (Cert.pick 6 (Cert.branch [(7, Cert.leaf)]))), (6, (Cert.pick 2 Cert.leaf)), (7, (Cert.pick 2 Cert.leaf))])))]))), (5, (Cert.pick 4 (Cert.branch [(1, (Cert.pick 2 (Cert.branch [(6, (Cert.pick 7 (Cert.branch [(8, Cert.leaf)]))), (7, (Cert.pick 6 Cert.leaf)), (8, (Cert.pick 6 Cert.leaf))]))), (2, (Cert.pick 8 Cert.leaf)), (6, (Cert.pick 1 (Cert.branch [(2, (Cert.pick 7 Cert.leaf)), (7, (Cert.pick 2 Cert.leaf)), (8, (Cert.pick 2 Cert.leaf))]))), (7, (Cert.pick 1 (Cert.branch [(2, (Cert.pick 8 Cert.leaf)), (6, (Cert.pick 2 Cert.leaf)), (8, (Cert.pick 2 Cert.leaf))]))), (8, (Cert.pick 2 (Cert.branch [(1, (Cert.pick 6 Cert.leaf)), (6, (Cert.pick 1 Cert.leaf)), (7, (Cert.pick 1 Cert.leaf))])))]))), (6, (Cert.pick 1 (Cert.branch [(2, (Cert.pick 4 (Cert.branch [(5, (Cert.pick 7 Cert.leaf)), (7, (Cert.pick 8 Cert.leaf)), (8, (Cert.pick 7 Cert.leaf))]))), (4, (Cert.pick 2 Cert.leaf)), (5, (Cert.pick 2 Cert.leaf)), (7, (Cert.pick 2 Cert.leaf)), (8, (Cert.pick 2 Cert.leaf))]))), (7, (Cert.pick 2 (Cert.branch [(1, (Cert.pick 4 (Cert.branch [(5, (Cert.pick 6 Cert.leaf)), (6, (Cert.pick 8 Cert.leaf)), (8, (Cert.pick 6 Cert.leaf))]))), (4, (Cert.pick 1 Cert.leaf)), (5, (Cert.pick 1 Cert.leaf)), (6, (Cert.pick 1 Cert.leaf)), (8, (Cert.pick 1 Cert.leaf))]))), (8, (Cert.pick 2 (Cert.branch [(1, (Cert.pick 4 (Cert.branch [(5, (Cert.pick 6 Cert.leaf)), (6, (Cert.pick 7 (Cert.branch [(5, Cert.leaf)]))), (7, (Cert.pick 6 Cert.leaf))]))), (4, (Cert.pick 1 Cert.leaf)), (5, (Cert.pick 1 Cert.leaf)), (6, (Cert.pick 1 Cert.leaf)), (7, (Cert.pick 1 Cert.leaf))])))]))
/-- Certificate bounding the opening move at cell 4 to at most a draw. -/
def certUB4 : Cert := (Cert.pick 0 (Cert.branch [(1, (Cert.pick 7 (Cert.branch [(2, (Cert.pick 6 (Cert.branch [(3, (Cert.pick 5 (Cert.branch [(8, Cert.leaf)]))), (5, (Cert.pick 3 Cert.leaf)), (8, (Cert.pick 3 Cert.leaf))]))), (3, (Cert.pick 5 (Cert.branch [(2, (Cert.pick 6 (Cert.branch [(8, Cert.leaf)]))), (6, (Cert.pick 2 (Cert.branch [(8, Cert.leaf)]))), (8, (Cert.pick 2 (Cert.branch [(6, Cert.leaf)])))]))), (5, (Cert.pick 3 (Cert.branch [(2, (Cert.pick 6 Cert.leaf)), (6, (Cert.pick 2 (Cert.branch [(8, Cert.leaf)]))), (8, (Cert.pick 2 (Cert.branch [(6, Cert.leaf)])))]))), (6, (Cert.pick 2 (Cert.branch [(3, (Cert.pick 5 (Cert.branch [(8, Cert.leaf)]))), (5, (Cert.pick 3 (Cert.branch [(8, Cert.leaf)]))), (8, (Cert.pick 3 (Cert.branch [(5, Cert.leaf)])))]))), (8, (Cert.pick 2 (Cert.branch [(3, (Cert.pick 5 (Cert.branch [(6, Cert.leaf)]))), (5, (Cert.pick 3 (Cert.branch [(6, Cert.leaf)]))), (6, (Cert.pick 3 (Cert.branch [(5, Cert.leaf)])))])))]))), (2, (Cert.pick 6 (Cert.branch [(1, (Cert.pick 3 Cert.leaf)), (3, (Cert.pick 5 (Cert.branch [(1, (Cert.pick 7 (Cert.branch [(8, Cert.leaf)]))), (7, (Cert.pick 1 (Cert.branch [(8, Cert.leaf)]))), (8, (Cert.pick 1 (Cert.branch [(7, Cert.leaf)])))]))), (5, (Cert.pick 3 Cert.leaf)), (7, (Cert.pick 1 (Cert.branch [(3, (Cert.pick 5 (Cert.branch [(8, Cert.leaf)]))), (5, (Cert.pick 3 Cert.leaf)), (8, (Cert.pick 3 Cert.leaf))]))), (8, (Cert.pick 3 Cert.leaf))]))), (3, (Cert.pick 5 (Cert.branch [(1, (Cert.pick 7 (Cert.branch [(2, (Cert.pick 6 (Cert.branch [(8, Cert.leaf)]))), (6, (Cert.pick 2 (Cert.branch [(8, Cert.leaf)]))), (8, (Cert.pick 2 (Cert.branch [(6, Cert.leaf)])))]))), (2, (Cert.pick 6 (Cert.branch [(1, (Cert.pick 7 (Cert.branch [(8, Cert.leaf)]))), (7, (Cert.pick 1 (Cert.branch [(8, Cert.leaf)]))), (8, (Cert.pick 1 (Cert.branch [(7, Cert.leaf)])))]))), (6, (Cert.pick 2 (Cert.branch [(1, (Cert.pick 7 (Cert.branch [(8, Cert.leaf)]))), (7, (Cert.pick 1 Cert.leaf)), (8, (Cert.pick 1 Cert.leaf))]))), (7, (Cert.pick 1 (Cert.branch [(2, (Cert.pick 6 (Cert.branch [(8, Cert.leaf)]))), (6, (Cert.pick 2 Cert.leaf)), (8, (Cert.pick 2 Cert.leaf))]))), (8, (Cert.pick 1 (Cert.branch [(2, (Cert.pick 6 (Cert.branch [(7, Cert.leaf)]))), (6, (Cert.pick 2 Cert.leaf)), (7, (Cert.pick 2 Cert.leaf))])))]))), (5, (Cert.pick 3 (Cert.branch [(1, (Cert.pick 6 Cert.leaf)), (2, (Cert.pick 6 Cert.leaf)), (6, (Cert.pick 2 (Cert.branch [(1, (Cert.pick 7 (Cert.branch [(8, Cert.leaf)]))), (7, (Cert.pick 1 Cert.leaf)), (8, (Cert.pick 1 Cert.leaf))]))), (7, (Cert.pick 1 (Cert.branch [(2, (Cert.pick 6 Cert.leaf)), (6, (Cert.pick 2 Cert.leaf)), (8, (Cert.pick 2 Cert.leaf))]))), (8, (Cert.pick 2 (Cert.branch [(1, (Cert.pick 6 Cert.leaf)), (6, (Cert.pick 1 Cert.leaf)), (7, (Cert.pick 1 Cert.leaf))])))]))), (6, (Cert.pick 2 (Cert.branch [(1, (Cert.pick 7 (Cert.branch [(3, (Cert.pick 5 (Cert.branch [(8, Cert.leaf)]))), (5, (Cert.pick 3 (Cert.branch [(8, Cert.leaf)]))), (8, (Cert.pick 3 (Cert.branch [(5, Cert.leaf)])))]))), (3, (Cert.pick 1 Cert.leaf)), (5, (Cert.pick 1 Cert.leaf)), (7, (Cert.pick 1 Cert.leaf)), (8, (Cert.pick 1 Cert.leaf))]))), (7, (Cert.pick 1 (Cert.branch [(2, (Cert.pick 6 (Cert.branch [(3, (Cert.pick 5 (Cert.branch [(8, Cert.leaf)]))), (5, (Cert.pick 3 Cert.leaf)), (8, (Cert.pick 3 Cert.leaf))]))), (3, (Cert.pick 2 Cert.leaf)), (5, (Cert.pick 2 Cert.leaf)), (6, (Cert.pick 2 Cert.leaf)), (8, (Cert.pick 2 Cert.leaf))]))), (8, (Cert.pick 2 (Cert.branch [(1, (Cert.pick 7 (Cert.branch [(3, (Cert.pick 5 (Cert.branch [(6, Cert.leaf)]))), (5, (Cert.pick 3 (Cert.branch [(6, Cert.leaf)]))), (6, (Cert.pick 3 (Cert.branch [(5, Cert.leaf)])))]))), (3, (Cert.pick 1 Cert.leaf)), (5, (Cert.pick 1 Cert.leaf)), (6, (Cert.pick 1 Cert.leaf)), (7, (Cert.pick 1 Cert.leaf))])))]))
/-- Certificate bounding the opening move at cell 5 to at most a draw. -/
def certUB5 : Cert := (Cert.pick 2 (Cert.branch [(0, (Cert.pick 3 (Cert.branch [(1, (Cert.pick 4 (Cert.branch [(6, (Cert.pick 7 (Cert.branch [(8, Cert.leaf)]))), (7, (Cert.pick 6 Cert.leaf)), (8, (Cert.pick 6 Cert.leaf))]))), (4, (Cert.pick 8 (Cert.branch [(1, (Cert.pick 7 (Cert.branch [(6, Cert.leaf)]))), (6, (Cert.pick 1 (Cert.branch [(7, Cert.leaf)]))), (7, (Cert.pick 1 (Cert.branch [(6, Cert.leaf)])))]))), (6, (Cert.pick 4 (Cert.branch [(1, (Cert.pick 7 (Cert.branch [(8, Cert.leaf)]))), (7, (Cert.pick 8 (Cert.branch [(1, Cert.leaf)]))), (8, (Cert.pick 7 (Cert.branch [(1, Cert.leaf)])))]))), (7, (Cert.pick 4 (Cert.branch [(1, (Cert.pick 6 Cert.leaf)), (6, (Cert.pick 8 (Cert.branch [(1, Cert.leaf)]))), (8, (Cert.pick 6 Cert.leaf))]))), (8, (Cert.pick 4 (Cert.branch [(1, (Cert.pick 6 Cert.leaf)), (6, (Cert.pick 7 (Cert.branch [(1, Cert.leaf)]))), (7, (Cert.pick 6 Cert.leaf))])))]))), (1, (Cert.pick 3 (Cert.branch [(0, (Cert.pick 4 (Cert.branch [(6, (Cert.pick 7 (Cert.branch [(8, Cert.leaf)]))), (7, (Cert.pick 6 Cert.leaf)), (8, (Cert.pick 6 Cert.leaf))]))), (4, (Cert.pick 7 (Cert.branch [(0, (Cert.pick 8 (Cert.branch [(6, Cert.leaf)]))), (6, (Cert.pick 0 (Cert.branch [(8, Cert.leaf)]))), (8, (Cert.pick 0 (Cert.branch [(6, Cert.leaf)])))]))), (6, (Cert.pick 4 (Cert.branch [(0, (Cert.pick 7 (Cert.branch [(8, Cert.leaf)]))), (7, (Cert.pick 8 (Cert.branch [(0, Cert.leaf)]))), (8, (Cert.pick 7 (Cert.branch [(0, Cert.leaf)])))]))), (7, (Cert.pick 4 (Cert.branch [(0, (Cert.pick 6 Cert.leaf)), (6, (Cert.pick 8 (Cert.branch [(0, Cert.leaf)]))), (8, (Cert.pick 6 Cert.leaf))]))), (8, (Cert.pick 0 (Cert.branch [(4, (Cert.pick 6 Cert.leaf)), (6, (Cert.pick 7 (Cert.branch [(4, Cert.leaf)]))), (7, (Cert.pick 6 Cert.leaf))])))]))), (3, (Cert.pick 4 (Cert.branch [(0, (Cert.pick 6 Cert.leaf)), (1, (Cert.pick 0 (Cert.branch [(6, (Cert.pick 7 (Cert.branch [(8, Cert.leaf)]))), (7, (Cert.pick 6 Cert.leaf)), (8, (Cert.pick 6 Cert.leaf))]))), (6, (Cert.pick 0 (Cert.branch [(1, (Cert.pick 7 (Cert.branch [(8, Cert.leaf)]))), (7, (Cert.pick 1 Cert.leaf)), (8, (Cert.pick 1 Cert.leaf))]))), (7, (Cert.pick 0 (Cert.branch [(1, (Cert.pick 6 Cert.leaf)), (6, (Cert.pick 1 Cert.leaf)), (8, (Cert.pick 1 Cert.leaf))]))), (8, (Cert.pick 0 (Cert.branch [(1, (Cert.pick 6 Cert.leaf)), (6, (Cert.pick 1 Cert.leaf)), (7, (Cert.pick 1 Cert.leaf))])))]))), (4, (Cert.pick 3 (Cert.branch [(0, (Cert.pick 8 (Cert.branch [(1, (Cert.pick 7 (Cert.branch [(6, Cert.leaf)]))), (6, (Cert.pick 1 (Cert.branch [(7, Cert.leaf)]))), (7, (Cert.pick 1 (Cert.branch [(6, Cert.leaf)])))]))), (1, (Cert.pick 7 (Cert.branch [(0, (Cert.pick 8 (Cert.branch [(6, Cert.leaf)]))), (6, (Cert.pick 0 (Cert.branch [(8, Cert.leaf)]))), (8, (Cert.pick 0 (Cert.branch [(6, Cert.leaf)])))]))), (6, (Cert.pick 0 (Cert.branch [(1, (Cert.pick 7 (Cert.branch [(8, Cert.leaf)]))), (7, (Cert.pick 1 Cert.leaf)), (8, (Cert.pick 1 Cert.leaf))]))), (7, (Cert.pick 1 (Cert.branch [(0, (Cert.pick 8 (Cert.branch [(6, Cert.leaf)]))), (6, (Cert.pick 0 Cert.leaf)), (8, (Cert.pick 0 Cert.leaf))]))), (8, (Cert.pick 0 (Cert.branch [(1, (Cert.pick 6 Cert.leaf)), (6, (Cert.pick 1 Cert.leaf)), (7, (Cert.pick 1 Cert.leaf))])))]))), (6, (Cert.pick 0 (Cert.branch [(1, (Cert.pick 4 (Cert.branch [(3, (Cert.pick 7 (Cert.branch [(8, Cert.leaf)]))), (7, (Cert.pick 8 Cert.leaf)), (8, (Cert.pick 7 (Cert.branch [(3, Cert.leaf)])))]))), (3, (Cert.pick 1 Cert.leaf)), (4, (Cert.pick 1 Cert.leaf)), (7, (Cert.pick 1 Cert.leaf)), (8, (Cert.pick 1 Cert.leaf))]))), (7, (Cert.pick 0 (Cert.branch [(1, (Cert.pick 4 (Cert.branch [(3, (Cert.pick 6 Cert.leaf)), (6, (Cert.pick 8 Cert.leaf)), (8, (Cert.pick 6 Cert.leaf))]))), (3, (Cert.pick 1 Cert.leaf)), (4, (Cert.pick 1 Cert.leaf)), (6, (Cert.pick 1 Cert.leaf)), (8, (Cert.pick 1 Cert.leaf))]))), (8, (Cert.pick 0 (Cert.branch [(1, (Cert.pick 3 (Cert.branch [(4, (Cert.pick 6 Cert.leaf)), (6, (Cert.pick 7 (Cert.branch [(4, Cert.leaf)]))), (7, (Cert.pick 6 Cert.leaf))]))), (3, (Cert.pick 1 Cert.leaf)), (4, (Cert.pick 1 Cert.leaf)), (6, (Cert.pick 1 Cert.leaf)), (7, (Cert.pick 1 Cert.leaf))])))]))
/-- Certificate bounding the opening move at cell 6 to at most a draw. -/
def certUB6 : Cert := (Cert.pick 4 (Cert.branch [(0, (Cert.pick 3 (Cert.branch [(1, (Cert.pick 2 (Cert.branch [(5, (Cert.pick 7 (Cert.branch [(8, Cert.leaf)]))), (7, (Cert.pick 5 Cert.leaf)), (8, (Cert.pick 5 Cert.leaf))]))), (2, (Cert.pick 1 (Cert.branch [(5, (Cert.pick 7 Cert.leaf)), (7, (Cert.pick 5 Cert.leaf)), (8, (Cert.pick 5 Cert.leaf))]))), (5, (Cert.pick 1 (Cert.branch [(2, (Cert.pick 7 Cert.leaf)), (7, (Cert.pick 8 (Cert.branch [(2, Cert.leaf)]))), (8, (Cert.pick 7 Cert.leaf))]))), (7, (Cert.pick 5 Cert.leaf)), (8, (Cert.pick 5 Cert.leaf))]))), (1, (Cert.pick 0 (Cert.branch [(2, (Cert.pick 3 (Cert.branch [(5, (Cert.pick 8 Cert.leaf)), (7, (Cert.pick 5 Cert.leaf)), (8, (Cert.pick 5 Cert.leaf))]))), (3, (Cert.pick 2 (Cert.branch [(5, (Cert.pick 7 (Cert.branch [(8, Cert.leaf)]))), (7, (Cert.pick 8 Cert.leaf)), (8, (Cert.pick 7 (Cert.branch [(5, Cert.leaf)])))]))), (5, (Cert.pick 2 (Cert.branch [(3, (Cert.pick 7 (Cert.branch [(8, Cert.leaf)]))), (7, (Cert.pick 8 Cert.leaf)), (8, (Cert.pick 7 (Cert.branch [(3, Cert.leaf)])))]))), (7, (Cert.pick 8 Cert.leaf)), (8, (Cert.pick 7 (Cert.branch [(2, (Cert.pick 5 (Cert.branch [(3, Cert.leaf)]))), (3, (Cert.pick 2 (Cert.branch [(5, Cert.leaf)]))), (5, (Cert.pick 2 (Cert.branch [(3, Cert.leaf)])))])))]))), (2, (Cert.pick 1 (Cert.branch [(0, (Cert.pick 3 (Cert.branch [(5, (Cert.pick 7 Cert.leaf)), (7, (Cert.pick 5 Cert.leaf)), (8, (Cert.pick 5 Cert.leaf))]))), (3, (Cert.pick 0 (Cert.branch [(5, (Cert.pick 7 Cert.leaf)), (7, (Cert.pick 8 Cert.leaf)), (8, (Cert.pick 7 Cert.leaf))]))), (5, (Cert.pick 7 Cert.leaf)), (7, (Cert.pick 8 (Cert.branch [(0, (Cert.pick 3 (Cert.branch [(5, Cert.leaf)]))), (3, (Cert.pick 0 Cert.leaf)), (5, (Cert.pick 0 Cert.leaf))]))), (8, (Cert.pick 7 Cert.leaf))]))), (3, (Cert.pick 0 (Cert.branch [(1, (Cert.pick 2 (Cert.branch [(5, (Cert.pick 7 (Cert.branch [(8, Cert.leaf)]))), (7, (Cert.pick 8 Cert.leaf)), (8, (Cert.pick 7 (Cert.branch [(5, Cert.leaf)])))]))), (2, (Cert.pick 1 (Cert.branch [(5, (Cert.pick 7 Cert.leaf)), (7, (Cert.pick 8 Cert.leaf)), (8, (Cert.pick 7 Cert.leaf))]))), (5, (Cert.pick 1 (Cert.branch [(2, (Cert.pick 7 Cert.leaf)), (7, (Cert.pick 2 Cert.leaf)), (8, (Cert.pick 2 Cert.leaf))]))), (7, (Cert.pick 8 Cert.leaf)), (8, (Cert.pick 7 (Cert.branch [(1, (Cert.pick 2 (Cert.branch [(5, Cert.leaf)]))), (2, (Cert.pick 1 Cert.leaf)), (5, (Cert.pick 1 Cert.leaf))])))]))), (5, (Cert.pick 1 (Cert.branch [(0, (Cert.pick 3 (Cert.branch [(2, (Cert.pick 7 Cert.leaf)), (7, (Cert.pick 8 (Cert.branch [(2, Cert.leaf)]))), (8, (Cert.pick 7 Cert.leaf))]))), (2, (Cert.pick 7 Cert.leaf)), (3, (Cert.pick 0 (Cert.branch [(2, (Cert.pick 7 Cert.leaf)), (7, (Cert.pick 2 Cert.leaf)), (8, (Cert.pick 2 Cert.leaf))]))), (7, (Cert.pick 8 (Cert.branch [(0, (Cert.pick 3 (Cert.branch [(2, Cert.leaf)]))), (2, (Cert.pick 0 Cert.leaf)), (3, (Cert.pick 0 Cert.leaf))]))), (8, (Cert.pick 7 Cert.leaf))]))), (7, (Cert.pick 8 (Cert.branch [(0, (Cert.pick 3 (Cert.branch [(1, (Cert.pick 2 (Cert.branch [(5, Cert.leaf)]))), (2, (Cert.pick 1 (Cert.branch [(5, Cert.leaf)]))), (5, (Cert.pick 1 (Cert.branch [(2, Cert.leaf)])))]))), (1, (Cert.pick 0 Cert.leaf)), (2, (Cert.pick 0 Cert.leaf)), (3, (Cert.pick 0 Cert.leaf)), (5, (Cert.pick 0 Cert.leaf))]))), (8, (Cert.pick 7 (Cert.branch [(0, (Cert.pick 1 Cert.leaf)), (1, (Cert.pick 0 (Cert.branch [(2, (Cert.pick 5 (Cert.branch [(3, Cert.leaf)]))), (3, (Cert.pick 2 (Cert.branch [(5, Cert.leaf)]))), (5, (Cert.pick 2 (Cert.branch [(3, Cert.leaf)])))]))), (2, (Cert.pick 1 Cert.leaf)), (3, (Cert.pick 0 (Cert.branch [(1, (Cert.pick 2 (Cert.branch [(5, Cert.leaf)]))), (2, (Cert.pick 1 Cert.leaf)), (5, (Cert.pick 1 Cert.leaf))]))), (5, (Cert.pick 1 Cert.leaf))])))]))
/-- Certificate bounding the opening move at cell 7 to at most a draw. -/
def certUB7 : Cert := (Cert.pick 1 (Cert.branch [(0, (Cert.pick 6 (Cert.branch [(2, (Cert.pick 4 (Cert.branch [(3, (Cert.pick 5 (Cert.branch [(8, Cert.leaf)]))), (5, (Cert.pick 8 (Cert.branch [(3, Cert.leaf)]))), (8, (Cert.pick 5 (Cert.branch [(3, Cert.leaf)])))]))), (3, (Cert.pick 4 (Cert.branch [(2, (Cert.pick 5 (Cert.branch [(8, Cert.leaf)]))), (5, (Cert.pick 2 Cert.leaf)), (8, (Cert.pick 2 Cert.leaf))]))), (4, (Cert.pick 8 (Cert.branch [(2, (Cert.pick 3 (Cert.branch [(5, Cert.leaf)]))), (3, (Cert.pick 5 (Cert.branch [(2, Cert.leaf)]))), (5, (Cert.pick 3 (Cert.branch [(2, Cert.leaf)])))]))), (5, (Cert.pick 4 (Cert.branch [(2, (Cert.pick 8 (Cert.branch [(3, Cert.leaf)]))), (3, (Cert.pick 2 Cert.leaf)), (8, (Cert.pick 2 Cert.leaf))]))), (8, (Cert.pick 4 (Cert.branch [(2, (Cert.pick 5 (Cert.branch [(3, Cert.leaf)]))), (3, (Cert.pick 2 Cert.leaf)), (5, (Cert.pick 2 Cert.leaf))])))]))), (2, (Cert.pick 6 (Cert.branch [(0, (Cert.pick 4 (Cert.branch [(3, (Cert.pick 5 (Cert.branch [(8, Cert.leaf)]))), (5, (Cert.pick 8 (Cert.branch [(3, Cert.leaf)]))), (8, (Cert.pick 5 (Cert.branch [(3, Cert.leaf)])))]))), (3, (Cert.pick 4 (Cert.branch [(0, (Cert.pick 5 (Cert.branch [(8, Cert.leaf)]))), (5, (Cert.pick 8 (Cert.branch [(0, Cert.leaf)]))), (8, (Cert.pick 5 (Cert.branch [(0, Cert.leaf)])))]))), (4, (Cert.pick 0 (Cert.branch [(3, (Cert.pick 5 (Cert.branch [(8, Cert.leaf)]))), (5, (Cert.pick 3 Cert.leaf)), (8, (Cert.pick 3 Cert.leaf))]))), (5, (Cert.pick 8 (Cert.branch [(0, (Cert.pick 3 (Cert.branch [(4, Cert.leaf)]))), (3, (Cert.pick 4 (Cert.branch [(0, Cert.leaf)]))), (4, (Cert.pick 3 (Cert.branch [(0, Cert.leaf)])))]))), (8, (Cert.pick 5 (Cert.branch [(0, (Cert.pick 4 (Cert.branch [(3, Cert.leaf)]))), (3, (Cert.pick 0 (Cert.branch [(4, Cert.leaf)]))), (4, (Cert.pick 0 (Cert.branch [(3, Cert.leaf)])))])))]))), (3, (Cert.pick 6 (Cert.branch [(0, (Cert.pick 4 (Cert.branch [(2, (Cert.pick 5 (Cert.branch [(8, Cert.leaf)]))), (5, (Cert.pick 2 Cert.leaf)), (8, (Cert.pick 2 Cert.leaf))]))), (2, (Cert.pick 4 (Cert.branch [(0, (Cert.pick 5 (Cert.branch [(8, Cert.leaf)]))), (5, (Cert.pick 8 (Cert.branch [(0, Cert.leaf)]))), (8, (Cert.pick 5 (Cert.branch [(0, Cert.leaf)])))]))), (4, (Cert.pick 5 (Cert.branch [(0, (Cert.pick 8 (Cert.branch [(2, Cert.leaf)]))), (2, (Cert.pick 0 (Cert.branch [(8, Cert.leaf)]))), (8, (Cert.pick 0 (Cert.branch [(2, Cert.leaf)])))]))), (5, (Cert.pick 4 (Cert.branch [(0, (Cert.pick 2 Cert.leaf)), (2, (Cert.pick 8 (Cert.branch [(0, Cert.leaf)]))), (8, (Cert.pick 2 Cert.leaf))]))), (8, (Cert.pick 0 (Cert.branch [(2, (Cert.pick 5 (Cert.branch [(4, Cert.leaf)]))), (4, (Cert.pick 2 Cert.leaf)), (5, (Cert.pick 2 Cert.leaf))])))]))), (4, (Cert.pick 0 (Cert.branch [(2, (Cert.pick 6 (Cert.branch [(3, (Cert.pick 5 (Cert.branch [(8, Cert.leaf)]))), (5, (Cert.pick 3 Cert.leaf)), (8, (Cert.pick 3 Cert.leaf))]))), (3, (Cert.pick 2 Cert.leaf)), (5, (Cert.pick 2 Cert.leaf)), (6, (Cert.pick 2 Cert.leaf)), (8, (Cert.pick 2 Cert.leaf))]))), (5, (Cert.pick 6 (Cert.branch [(0, (Cert.pick 4 (Cert.branch [(2, (Cert.pick 8 (Cert.branch [(3, Cert.leaf)]))), (3, (Cert.pick 2 Cert.leaf)), (8, (Cert.pick 2 Cert.leaf))]))), (2, (Cert.pick 8 (Cert.branch [(0, (Cert.pick 3 (Cert.branch [(4, Cert.leaf)]))), (3, (Cert.pick 4 (Cert.branch [(0, Cert.leaf)]))), (4, (Cert.pick 3 (Cert.branch [(0, Cert.leaf)])))]))), (3, (Cert.pick 4 (Cert.branch [(0, (Cert.pick 2 Cert.leaf)), (2, (Cert.pick 8 (Cert.branch [(0, Cert.leaf)]))), (8, (Cert.pick 2 Cert.leaf))]))), (4, (Cert.pick 3 (Cert.branch [(0, (Cert.pick 8 (Cert.branch [(2, Cert.leaf)]))), (2, (Cert.pick 0 Cert.leaf)), (8, (Cert.pick 0 Cert.leaf))]))), (8, (Cert.pick 2 (Cert.branch [(0, (Cert.pick 4 Cert.leaf)), (3, (Cert.pick 0 Cert.leaf)), (4, (Cert.pick 0 Cert.leaf))])))]))), (6, (Cert.pick 8 (Cert.branch [(0, (Cert.pick 3 (Cert.branch [(2, (Cert.pick 4 (Cert.branch [(5, Cert.leaf)]))), (4, (Cert.pick 2 (Cert.branch [(5, Cert.leaf)]))), (5, (Cert.pick 2 (Cert.branch [(4, Cert.leaf)])))]))), (2, (Cert.pick 4 (Cert.branch [(0, (Cert.pick 3 (Cert.branch [(5, Cert.leaf)]))), (3, (Cert.pick 0 Cert.leaf)), (5, (Cert.pick 0 Cert.leaf))]))), (3, (Cert.pick 0 (Cert.branch [(2, (Cert.pick 4 Cert.leaf)), (4, (Cert.pick 2 Cert.leaf)), (5, (Cert.pick 2 Cert.leaf))]))), (4, (Cert.pick 2 (Cert.branch [(0, (Cert.pick 3 (Cert.branch [(5, Cert.leaf)]))), (3, (Cert.pick 0 Cert.leaf)), (5, (Cert.pick 0 Cert.leaf))]))), (5, (Cert.pick 0 (Cert.branch [(2, (Cert.pick 4 Cert.leaf)), (3, (Cert.pick 2 Cert.leaf)), (4, (Cert.pick 2 Cert.leaf))])))]))), (8, (Cert.pick 6 (Cert.branch [(0, (Cert.pick 4 (Cert.branch [(2, (Cert.pick 5 (Cert.branch [(3, Cert.leaf)]))), (3, (Cert.pick 2 Cert.leaf)), (5, (Cert.pick 2 Cert.leaf))]))), (2, (Cert.pick 5 (Cert.branch [(0, (Cert.pick 4 (Cert.branch [(3, Cert.leaf)]))), (3, (Cert.pick 0 (Cert.branch [(4, Cert.leaf)]))), (4, (Cert.pick 0 (Cert.branch [(3, Cert.leaf)])))]))), (3, (Cert.pick 0 (Cert.branch [(2, (Cert.pick 5 (Cert.branch [(4, Cert.leaf)]))), (4, (Cert.pick 2 Cert.leaf)), (5, (Cert.pick 2 Cert.leaf))]))), (4, (Cert.pick 0 (Cert.branch [(2, (Cert.pick 3 Cert.leaf)), (3, (Cert.pick 2 Cert.leaf)), (5, (Cert.pick 2 Cert.leaf))]))), (5, (Cert.pick 2 (Cert.branch [(0, (Cert.pick 4 Cert.leaf)), (3, (Cert.pick 0 Cert.leaf)), (4, (Cert.pick 0 Cert.leaf))])))])))]))
/-- Certificate bounding the opening move at cell 8 to at most a draw. -/
def certUB8 : Cert := (Cert.pick 4 (Cert.branch [(0, (Cert.pick 1 (Cert.branch [(2, (Cert.pick 5 (Cert.branch [(3, (Cert.pick 6 (Cert.branch [(7, Cert.leaf)]))), (6, (Cert.pick 3 Cert.leaf)), (7, (Cert.pick 3 Cert.leaf))]))), (3, (Cert.pick 6 (Cert.branch [(2, (Cert.pick 5 (Cert.branch [(7, Cert.leaf)]))), (5, (Cert.pick 2 Cert.leaf)), (7, (Cert.pick 2 Cert.leaf))]))), (5, (Cert.pick 2 (Cert.branch [(3, (Cert.pick 6 Cert.leaf)), (6, (Cert.pick 7 Cert.leaf)), (7, (Cert.pick 6 Cert.leaf))]))), (6, (Cert.pick 7 Cert.leaf)), (7, (Cert.pick 6 (Cert.branch [(2, (Cert.pick 5 (Cert.branch [(3, Cert.leaf)]))), (3, (Cert.pick 2 Cert.leaf)), (5, (Cert.pick 2 Cert.leaf))])))]))), (1, (Cert.pick 0 (Cert.branch [(2, (Cert.pick 5 (Cert.branch [(3, (Cert.pick 6 (Cert.branch [(7, Cert.leaf)]))), (6, (Cert.pick 3 Cert.leaf)), (7, (Cert.pick 3 Cert.leaf))]))), (3, (Cert.pick 2 (Cert.branch [(5, (Cert.pick 6 Cert.leaf)), (6, (Cert.pick 7 (Cert.branch [(5, Cert.leaf)]))), (7, (Cert.pick 6 Cert.leaf))]))), (5, (Cert.pick 2 (Cert.branch [(3, (Cert.pick 6 Cert.leaf)), (6, (Cert.pick 7 (Cert.branch [(3, Cert.leaf)]))), (7, (Cert.pick 6 Cert.leaf))]))), (6, (Cert.pick 7 (Cert.branch [(2, (Cert.pick 5 (Cert.branch [(3, Cert.leaf)]))), (3, (Cert.pick 2 (Cert.branch [(5, Cert.leaf)]))), (5, (Cert.pick 2 (Cert.branch [(3, Cert.leaf)])))]))), (7, (Cert.pick 6 (Cert.branch [(2, (Cert.pick 3 Cert.leaf)), (3, (Cert.pick 2 Cert.leaf)), (5, (Cert.pick 2 Cert.leaf))])))]))), (2, (Cert.pick 5 (Cert.branch [(0, (Cert.pick 1 (Cert.branch [(3, (Cert.pick 6 (Cert.branch [(7, Cert.leaf)]))), (6, (Cert.pick 3 Cert.leaf)), (7, (Cert.pick 3 Cert.leaf))]))), (1, (Cert.pick 0 (Cert.branch [(3, (Cert.pick 6 (Cert.branch [(7, Cert.leaf)]))), (6, (Cert.pick 3 Cert.leaf)), (7, (Cert.pick 3 Cert.leaf))]))), (3, (Cert.pick 0 (Cert.branch [(1, (Cert.pick 6 (Cert.branch [(7, Cert.leaf)]))), (6, (Cert.pick 7 (Cert.branch [(1, Cert.leaf)]))), (7, (Cert.pick 6 (Cert.branch [(1, Cert.leaf)])))]))), (6, (Cert.pick 3 Cert.leaf)), (7, (Cert.pick 3 Cert.leaf))]))), (3, (Cert.pick 0 (Cert.branch [(1, (Cert.pick 2 (Cert.branch [(5, (Cert.pick 6 Cert.leaf)), (6, (Cert.pick 7 (Cert.branch [(5, Cert.leaf)]))), (7, (Cert.pick 6 Cert.leaf))]))), (2, (Cert.pick 5 (Cert.branch [(1, (Cert.pick 6 (Cert.branch [(7, Cert.leaf)]))), (6, (Cert.pick 7 (Cert.branch [(1, Cert.leaf)]))), (7, (Cert.pick 6 (Cert.branch [(1, Cert.leaf)])))]))), (5, (Cert.pick 2 (Cert.branch [(1, (Cert.pick 6 Cert.leaf)), (6, (Cert.pick 1 Cert.leaf)), (7, (Cert.pick 1 Cert.leaf))]))), (6, (Cert.pick 7 (Cert.branch [(1, (Cert.pick 2 (Cert.branch [(5, Cert.leaf)]))), (2, (Cert.pick 1 Cert.leaf)), (5, (Cert.pick 1 Cert.leaf))]))), (7, (Cert.pick 6 (Cert.branch [(1, (Cert.pick 2 Cert.leaf)), (2, (Cert.pick 5 (Cert.branch [(1, Cert.leaf)]))), (5, (Cert.pick 2 Cert.leaf))])))]))), (5, (Cert.pick 2 (Cert.branch [(0, (Cert.pick 1 (Cert.branch [(3, (Cert.pick 6 Cert.leaf)), (6, (Cert.pick 7 Cert.leaf)), (7, (Cert.pick 6 Cert.leaf))]))), (1, (Cert.pick 0 (Cert.branch [(3, (Cert.pick 6 Cert.leaf)), (6, (Cert.pick 7 (Cert.branch [(3, Cert.leaf)]))), (7, (Cert.pick 6 Cert.leaf))]))), (3, (Cert.pick 0 (Cert.branch [(1, (Cert.pick 6 Cert.leaf)), (6, (Cert.pick 1 Cert.leaf)), (7, (Cert.pick 1 Cert.leaf))]))), (6, (Cert.pick 7 (Cert.branch [(0, (Cert.pick 1 Cert.leaf)), (1, (Cert.pick 0 (Cert.branch [(3, Cert.leaf)]))), (3, (Cert.pick 0 (Cert.branch [(1, Cert.leaf)])))]))), (7, (Cert.pick 6 Cert.leaf))]))), (6, (Cert.pick 7 (Cert.branch [(0, (Cert.pick 1 Cert.leaf)), (1, (Cert.pick 0 (Cert.branch [(2, (Cert.pick 5 (Cert.branch [(3, Cert.leaf)]))), (3, (Cert.pick 2 (Cert.branch [(5, Cert.leaf)]))), (5, (Cert.pick 2 (Cert.branch [(3, Cert.leaf)])))]))), (2, (Cert.pick 1 Cert.leaf)), (3, (Cert.pick 0 (Cert.branch [(1, (Cert.pick 2 (Cert.branch [(5, Cert.leaf)]))), (2, (Cert.pick 1 Cert.leaf)), (5, (Cert.pick 1 Cert.leaf))]))), (5, (Cert.pick 1 Cert.leaf))]))), (7, (Cert.pick 6 (Cert.branch [(0, (Cert.pick 1 (Cert.branch [(2, (Cert.pick 5 (Cert.branch [(3, Cert.leaf)]))), (3, (Cert.pick 2 Cert.leaf)), (5, (Cert.pick 2 Cert.leaf))]))), (1, (Cert.pick 0 (Cert.branch [(2, (Cert.pick 3 Cert.leaf)), (3, (Cert.pick 2 Cert.leaf)), (5, (Cert.pick 2 Cert.leaf))]))), (2, (Cert.pick 5 (Cert.branch [(0, (Cert.pick 1 (Cert.branch [(3, Cert.leaf)]))), (1, (Cert.pick 0 (Cert.branch [(3, Cert.leaf)]))), (3, (Cert.pick 0 (Cert.branch [(1, Cert.leaf)])))]))), (3, (Cert.pick 0 (Cert.branch [(1, (Cert.pick 2 Cert.leaf)), (2, (Cert.pick 5 (Cert.branch [(1, Cert.leaf)]))), (5, (Cert.pick 2 Cert.leaf))]))), (5, (Cert.pick 2 Cert.leaf))])))]))

/-- Opening at cell 0 scores at least a draw for Player 1. -/
lemma moveValue_init_zero_ge : (0 : Int) ≤ moveValue init_shared_state 0 := by
  rw [moveValue]
  exact lbCheck_sound 9 certLB0 (setCell init_shared_state 0 P1_MARK) 0 false 0
    (by norm_num [INT16_MAX]) (by decide)

/-- No opening at cells 1..8 scores better than a draw for Player 1. -/
lemma moveValue_init_le (k : Nat) (h1 : 1 ≤ k) (h8 : k ≤ 8) :
    moveValue init_shared_state k ≤ 0 := by
  rw [moveValue]
  interval_cases k
  · exact ubCheck_sound 9 certUB1 (setCell init_shared_state 1 P1_MARK) 0 false 0
      (by norm_num [INT32_MIN]) (by decide)
  · exact ubCheck_sound 9 certUB2 (setCell init_shared_state 2 P1_MARK) 0 false 0
      (by norm_num [INT32_MIN]) (by decide)
  · exact ubCheck_sound 9 certUB3 (setCell init_shared_state 3 P1_MARK) 0 false 0
      (by norm_num [INT32_MIN]) (by decide)
  · exact ubCheck_sound 9 certUB4 (setCell init_shared_state 4 P1_MARK) 0 false 0
      (by norm_num [INT32_MIN]) (by decide)
  · exact ubCheck_sound 9 certUB5 (setCell init_shared_state 5 P1_MARK) 0 false 0
      (by norm_num [INT32_MIN]) (by decide)
  · exact ubCheck_sound 9 certUB6 (setCell init_shared_state 6 P1_MARK) 0 false 0
      (by norm_num [INT32_MIN]) (by decide)
  · exact ubCheck_sound 9 certUB7 (setCell init_shared_state 7 P1_MARK) 0 false 0
      (by norm_num [INT32_MIN]) (by decide)
  · exact ubCheck_sound 9 certUB8 (setCell init_shared_state 8 P1_MARK) 0 false 0
      (by norm_num [INT32_MIN]) (by decide)

/-- Claim C5: the best-move search enumerates candidate moves in ascending
position index 1..9 and breaks ties in score by keeping the first maximal
value; in particular, on the freshly initialized (empty) board it
deterministically returns position 1. -/
theorem claim_C5 :
    (find_best_move init_shared_state).1 = 1 ∧
    (∀ g : Board, (∃ i, i < 9 ∧ getCell g i = label i) →
      ∃ j, j < 9 ∧ getCell g j = label j ∧ (find_best_move g).1 = (j : Int) + 1 ∧
        (∀ k, k < 9 → getCell g k = label k → moveValue g k ≤ moveValue g j) ∧
        (∀ k, k < j → getCell g k = label k → moveValue g k < moveValue g j)) := by
  constructor
  · obtain ⟨j, hj, hc, h1, h3, h4⟩ :=
      find_best_move_spec init_shared_state ⟨0, by norm_num, by decide⟩
    rcases Nat.eq_zero_or_pos j with h0 | hpos
    · rw [h0] at h1
      rw [h1]
      norm_num
    · exfalso
      have hlt := h4 0 hpos (by decide)
      have hge := moveValue_init_zero_ge
      have hle : moveValue init_shared_state j ≤ 0 := moveValue_init_le j hpos (by omega)
      omega
  · exact find_best_move_spec

/-- Witness for claim C5: the first-maximal characterization applied to the
freshly initialized board. -/
theorem claim_C5_witness :
    ∃ j, j < 9 ∧ getCell init_shared_state j = label j ∧
      (find_best_move init_shared_state).1 = (j : Int) + 1 ∧
      (∀ k, k < 9 → getCell init_shared_state k = label k →
        moveValue init_shared_state k ≤ moveValue init_shared_state j) ∧
      (∀ k, k < j → getCell init_shared_state k = label k →
        moveValue init_shared_state k < moveValue init_shared_state j) :=
  claim_C5.2 init_shared_state ⟨0, by norm_num, by decide⟩


/-- Claim C4: minimax scores a terminal win for the maximizing mark as
(+N - depth) and a terminal win for the opposing mark as (-N + depth) with
N = GAME_SIZE + 1 = 10 strictly larger than the maximum depth 9, and scores a
draw as 0; consequently a terminal win at a smaller depth scores strictly
higher than one at a larger depth, and a terminal loss at a larger depth
scores strictly higher (less negative) than one at a smaller depth. -/
theorem claim_C4 :
    (∀ g : Board, 0 < check_win g → check_win g = 10 ∧ (9 : Int) < check_win g) ∧
    (∀ (g : Board) (fuel depth : Nat) (m : Bool), 0 < check_win g →
      (minimax fuel g depth m).1 = 10 - depth) ∧
    (∀ (g : Board) (fuel depth : Nat) (m : Bool), check_win g < 0 →
      check_win g = -10 ∧ (minimax fuel g depth m).1 = -10 + depth) ∧
    (∀ (g : Board) (fuel depth : Nat) (m : Bool), check_win g = 0 →
      check_draw g = true → (minimax fuel g depth m).1 = 0) ∧
    (∀ (g1 g2 : Board) (fuel1 fuel2 d1 d2 : Nat) (m1 m2 : Bool),
      0 < check_win g1 → 0 < check_win g2 → d1 < d2 →
      (minimax fuel2 g2 d2 m2).1 < (minimax fuel1 g1 d1 m1).1) ∧
    (∀ (g1 g2 : Board) (fuel1 fuel2 d1 d2 : Nat) (m1 m2 : Bool),
      check_win g1 < 0 → check_win g2 < 0 → d1 < d2 →
      (minimax fuel1 g1 d1 m1).1 < (minimax fuel2 g2 d2 m2).1) := by
  have hwin : ∀ g : Board, 0 < check_win g → check_win g = 10 := by
    intro g h
    rcases check_win_cases g with h10 | h0 | hneg
    · exact h10
    · rw [h0] at h; omega
    · rw [hneg] at h; omega
  have hloss : ∀ g : Board, check_win g < 0 → check_win g = -10 := by
    intro g h
    rcases check_win_cases g with h10 | h0 | hneg
    · rw [h10] at h; omega
    · rw [h0] at h; omega
    · exact hneg
  have hpos : ∀ (g : Board) (fuel depth : Nat) (m : Bool), 0 < check_win g →
      (minimax fuel g depth m).1 = 10 - depth := by
    intro g fuel depth m h
    rw [minimax_win_pos fuel g depth m h, hwin g h]
  have hneg : ∀ (g : Board) (fuel depth : Nat) (m : Bool), check_win g < 0 →
      (minimax fuel g depth m).1 = -10 + depth := by
    intro g fuel depth m h
    rw [minimax_win_neg fuel g depth m h, hloss g h]
  refine ⟨fun g h => ⟨hwin g h, by rw [hwin g h]; norm_num⟩, hpos,
    fun g fuel depth m h => ⟨hloss g h, hneg g fuel depth m h⟩,
    fun g fuel depth m h0 hd => by rw [minimax_draw fuel g depth m h0 hd],
    ?_, ?_⟩
  · intro g1 g2 fuel1 fuel2 d1 d2 m1 m2 h1 h2 hd
    rw [hpos g1 fuel1 d1 m1 h1, hpos g2 fuel2 d2 m2 h2]
    omega
  · intro g1 g2 fuel1 fuel2 d1 d2 m1 m2 h1 h2 hd
    rw [hneg g1 fuel1 d1 m1 h1, hneg g2 fuel2 d2 m2 h2]
    omega

/-- Witness for claim C4: a board with a completed top row for each mark,
evaluated at depths 3 and 5. -/
theorem claim_C4_witness :
    (minimax 9 (⟨88, 88, 88, 52, 53, 54, 55, 56, 57⟩ : Board) 3 true).1 = 10 - (3 : Nat) ∧
    (minimax 9 (⟨79, 79, 79, 52, 53, 54, 55, 56, 57⟩ : Board) 5 false).1 = -10 + (5 : Nat) ∧
    (minimax 9 (⟨79, 79, 79, 52, 53, 54, 55, 56, 57⟩ : Board) 3 false).1 <
      (minimax 9 (⟨79, 79, 79, 52, 53, 54, 55, 56, 57⟩ : Board) 5 false).1 :=
  ⟨claim_C4.2.1 ⟨88, 88, 88, 52, 53, 54, 55, 56, 57⟩ 9 3 true (by decide),
   (claim_C4.2.2.1 ⟨79, 79, 79, 52, 53, 54, 55, 56, 57⟩ 9 5 false (by decide)).2,
   claim_C4.2.2.2.2.2 ⟨79, 79, 79, 52, 53, 54, 55, 56, 57⟩
     ⟨79, 79, 79, 52, 53, 54, 55, 56, 57⟩ 9 9 3 5 false false (by decide) (by decide)
     (by norm_num)⟩


/-! The ResumeGame snapshot validation (load_shared_state). -/

/-- The number of snapshot bytes equal to a given mark. -/
def countMark (snap : Board) (m : Nat) : Nat := (positions.map (getCell snap)).count m

/-- Every loop index is below 9 and conversely. -/
lemma positions_mem_iff (i : Nat) : i ∈ positions ↔ i < 9 := by
  constructor
  · intro h
    fin_cases h <;> norm_num
  · exact mem_positions i

/-- The snapshot loop accepts a snapshot of marks and zero bytes and counts
each player's marks. -/
lemma load_loop_spec (snap : Board) : ∀ (L : List Nat) (b : Board) (p1 p2 : Nat),
    (∀ i ∈ L, getCell snap i = 0 ∨ getCell snap i = P1_MARK ∨ getCell snap i = P2_MARK) →
    ∃ b1, load_loop snap L b p1 p2 =
      some (b1, p1 + (L.map (getCell snap)).count P1_MARK,
        p2 + (L.map (getCell snap)).count P2_MARK) := by
  intro L
  induction L with
  | nil =>
    intro b p1 p2 _
    exact ⟨b, by simp [load_loop]⟩
  | cons i rest ih =>
    intro b p1 p2 hok
    rcases hok i (List.mem_cons_self i rest) with h0 | h1 | h2
    · rw [load_loop, if_pos (Or.inl h0), if_neg (by rw [h0]; exact fun hx => hx rfl)]
      obtain ⟨b1, hb1⟩ := ih b p1 p2 (fun j hj => hok j (List.mem_cons_of_mem _ hj))
      refine ⟨b1, ?_⟩
      rw [hb1]
      have hx : getCell snap i ≠ P1_MARK := by rw [h0]; norm_num [P1_MARK]
      have hy : getCell snap i ≠ P2_MARK := by rw [h0]; norm_num [P2_MARK]
      simp [List.count_cons, hx, hy]
    · rw [load_loop, if_pos (Or.inr (Or.inl h1)),
        if_pos (by rw [h1]; norm_num [P1_MARK]), if_pos h1, if_pos h1]
      obtain ⟨b1, hb1⟩ := ih (setCell b i (getCell snap i)) (p1 + 1) p2
        (fun j hj => hok j (List.mem_cons_of_mem _ hj))
      refine ⟨b1, ?_⟩
      rw [hb1]
      have hy : getCell snap i ≠ P2_MARK := by rw [h1]; norm_num [P1_MARK, P2_MARK]
      simp [List.count_cons, h1, hy]
      omega
    · rw [load_loop, if_pos (Or.inr (Or.inr h2)),
        if_pos (by rw [h2]; norm_num [P2_MARK]),
        if_neg (by rw [h2]; norm_num [P1_MARK, P2_MARK]),
        if_neg (by rw [h2]; norm_num [P1_MARK, P2_MARK])]
      obtain ⟨b1, hb1⟩ := ih (setCell b i (getCell snap i)) p1 (p2 + 1)
        (fun j hj => hok j (List.mem_cons_of_mem _ hj))
      refine ⟨b1, ?_⟩
      rw [hb1]
      have hx : getCell snap i ≠ P1_MARK := by rw [h2]; norm_num [P1_MARK, P2_MARK]
      simp [List.count_cons, h2, hx]
      omega

/-- Claim C1 (amended): for a 9-byte ResumeGame board snapshot whose bytes are
all a mark or zero, the server rejects the snapshot — and resume_game then
resets the session to Empty — exactly when the counts of the two marks are
unequal; in particular a snapshot whose X-count and O-count differ by exactly
one is rejected (the original claim said such a snapshot is accepted). -/
theorem claim_C1 (snap b : Board)
    (hbytes : ∀ i, i < 9 →
      getCell snap i = 0 ∨ getCell snap i = P1_MARK ∨ getCell snap i = P2_MARK) :
    (load_shared_state snap b = none ↔
      countMark snap P1_MARK ≠ countMark snap P2_MARK) ∧
    (∀ (msg : TCP_Buffer) (game : TTT_Game), game.board = b →
      load_shared_state snap b = none →
      resume_game snap msg game = some (reset_game game, [])) := by
  constructor
  · obtain ⟨b1, hb1⟩ := load_loop_spec snap positions b 0 0
      (fun i hi => hbytes i ((positions_mem_iff i).mp hi))
    rw [load_shared_state, hb1]
    simp only [Nat.zero_add]
    by_cases hc : countMark snap P1_MARK = countMark snap P2_MARK
    · have hc' := hc
      rw [countMark, countMark] at hc'
      rw [if_neg (fun hx => hx hc')]
      constructor
      · intro h
        exact absurd h (by simp)
      · intro h
        exact absurd hc h
    · have hc' := hc
      rw [countMark, countMark] at hc'
      rw [if_pos hc']
      exact ⟨fun _ => hc, fun _ => rfl⟩
  · intro msg game hgb hnone
    rw [resume_game, hgb, hnone]

/-- Counterexample for claim C1 as frozen: the snapshot with a single X byte
has mark counts differing by exactly one, yet load_shared_state rejects it. -/
theorem claim_C1_counterexample :
    (∀ i, i < 9 →
      getCell (⟨88, 0, 0, 0, 0, 0, 0, 0, 0⟩ : Board) i = 0 ∨
      getCell (⟨88, 0, 0, 0, 0, 0, 0, 0, 0⟩ : Board) i = P1_MARK ∨
      getCell (⟨88, 0, 0, 0, 0, 0, 0, 0, 0⟩ : Board) i = P2_MARK) ∧
    countMark (⟨88, 0, 0, 0, 0, 0, 0, 0, 0⟩ : Board) P1_MARK =
      countMark (⟨88, 0, 0, 0, 0, 0, 0, 0, 0⟩ : Board) P2_MARK + 1 ∧
    load_shared_state (⟨88, 0, 0, 0, 0, 0, 0, 0, 0⟩ : Board) init_shared_state = none := by
  refine ⟨?_, by decide, by decide⟩
  decide

/-- Witness for claim C1: the all-zero snapshot has equal counts and is
accepted. -/
theorem claim_C1_witness :
    load_shared_state (⟨0, 0, 0, 0, 0, 0, 0, 0, 0⟩ : Board) init_shared_state = none ↔
      countMark (⟨0, 0, 0, 0, 0, 0, 0, 0, 0⟩ : Board) P1_MARK ≠
        countMark (⟨0, 0, 0, 0, 0, 0, 0, 0, 0⟩ : Board) P2_MARK :=
  (claim_C1 ⟨0, 0, 0, 0, 0, 0, 0, 0, 0⟩ init_shared_state (by decide)).1


/-! Inbound session-message validation and dispatch. -/

/-- A message failing any validation check is rejected by get_tcp_command. -/
lemma get_tcp_command_ok_false (msg : TCP_Buffer)
    (hbad : msg.version ≠ VERSION ∨ RESUME_GAME < msg.command ∨
      (msg.command ≠ NEW_GAME ∧ (msg.gameNum < 1 ∨ MAX_GAMES < msg.gameNum))) :
    get_tcp_command_ok msg = false := by
  rw [get_tcp_command_ok]
  split_ifs with h1 h2 h3
  · rfl
  · rfl
  · rfl
  · exfalso
    simp only [VERSION, RESUME_GAME, NEW_GAME, MAX_GAMES] at h1 h2 h3 hbad
    push_neg at h1 h2 h3
    rcases hbad with hb | hb | hb
    · exact hb h1
    · omega
    · rcases h3 hb.1 with h4
      omega

/-- Claim C6: a session message whose version byte differs from the supported
protocol version, whose command byte is outside the command set 0..3, or whose
slot number is outside 1..10 for a command other than NewGame, is rejected:
the session is reset to Empty, no move is computed, and no command handler is
dispatched (the handler result is exactly the reset session with no outbound
message). -/
theorem claim_C6 (snap : Board) (msg : TCP_Buffer) (game : TTT_Game)
    (hbad : msg.version ≠ VERSION ∨ RESUME_GAME < msg.command ∨
      (msg.command ≠ NEW_GAME ∧ (msg.gameNum < 1 ∨ MAX_GAMES < msg.gameNum))) :
    handle_tcp snap msg game = some (reset_game game, []) := by
  rw [handle_tcp, get_tcp_command_ok_false msg hbad]
  rfl

/-- Witness for claim C6: a message with unsupported version 5 resets the
session. -/
theorem claim_C6_witness :
    handle_tcp init_shared_state ⟨5, 1, 49, 1⟩
        { sd := 7, gameNum := 2, winner := -1, board := init_shared_state } =
      some (reset_game { sd := 7, gameNum := 2, winner := -1, board := init_shared_state },
        []) :=
  claim_C6 init_shared_state ⟨5, 1, 49, 1⟩
    { sd := 7, gameNum := 2, winner := -1, board := init_shared_state }
    (Or.inl (by decide))


/-! The roster scan for an open game, the accept path, and discovery replies. -/

/-- With every game bound, the scan reports no open game. -/
lemma find_open_game_loop_none : ∀ (L : List TTT_Game) (i : Nat),
    (∀ g ∈ L, 0 ≤ g.sd) → find_open_game_loop L i = -1 := by
  intro L
  induction L with
  | nil => intro i _; rfl
  | cons g rest ih =>
    intro i hall
    rw [find_open_game_loop,
      if_neg (not_lt.mpr (hall g (List.mem_cons_self g rest)))]
    exact ih (i + 1) (fun x hx => hall x (List.mem_cons_of_mem _ hx))

/-- With some game unbound, the scan reports the first unbound index. -/
lemma find_open_game_loop_first : ∀ (L : List TTT_Game) (i : Nat),
    (∃ g ∈ L, g.sd < 0) →
    ∃ k gk, L.get? k = some gk ∧ gk.sd < 0 ∧
      (∀ j gj, j < k → L.get? j = some gj → 0 ≤ gj.sd) ∧
      find_open_game_loop L i = ((i + k : Nat) : Int) := by
  intro L
  induction L with
  | nil =>
    intro i ⟨g, hg, _⟩
    exact absurd hg (List.not_mem_nil g)
  | cons g rest ih =>
    intro i hex
    by_cases hg : g.sd < 0
    · refine ⟨0, g, rfl, hg, ?_, ?_⟩
      · intro j gj hj _
        omega
      · rw [find_open_game_loop, if_pos hg]
        norm_num
    · have hex' : ∃ x ∈ rest, x.sd < 0 := by
        rcases hex with ⟨x, hx, hxsd⟩
        rcases List.mem_cons.mp hx with hxg | hxr
        · subst hxg; exact absurd hxsd hg
        · exact ⟨x, hxr, hxsd⟩
      obtain ⟨k, gk, hget, hsd, hfirst, hloop⟩ := ih (i + 1) hex'
      refine ⟨k + 1, gk, by simpa using hget, hsd, ?_, ?_⟩
      · intro j gj hj hgj
        cases j with
        | zero =>
          simp only [List.get?] at hgj
          cases hgj
          exact not_lt.mp hg
        | succ j' =>
          exact hfirst j' gj (by omega) (by simpa using hgj)
      · rw [find_open_game_loop, if_neg hg, hloop]
        congr 1
        omega

/-- Claim C7: when every one of the 10 roster slots is already bound, an
accepted connection is immediately closed again and every slot's binding and
board are unchanged; when a free slot exists, the connection is bound into the
first free slot (lowest index). -/
theorem claim_C7 (roster : List TTT_Game) (connected_sd : Int)
    (hlen : roster.length = 10) :
    ((∀ g ∈ roster, 0 ≤ g.sd) → accept_connection roster connected_sd = (roster, true)) ∧
    ((∃ g ∈ roster, g.sd < 0) →
      ∃ k gk, roster.get? k = some gk ∧ gk.sd < 0 ∧
        (∀ j gj, j < k → roster.get? j = some gj → 0 ≤ gj.sd) ∧
        accept_connection roster connected_sd =
          (roster.set k { gk with sd := connected_sd }, false)) := by
  constructor
  · intro hall
    rw [accept_connection, find_open_game, find_open_game_loop_none roster 0 hall,
      if_neg (by norm_num)]
  · intro hex
    obtain ⟨k, gk, hget, hsd, hfirst, hloop⟩ := find_open_game_loop_first roster 0 hex
    refine ⟨k, gk, hget, hsd, hfirst, ?_⟩
    rw [accept_connection, find_open_game, hloop,
      if_pos (by positivity)]
    rw [show (((0 + k : Nat) : Int)).toNat = k from by omega, hget]

/-- Witness for claim C7: a full roster of 10 bound slots closes the new
connection; the same roster with slot 0 unbound accepts into slot 0. -/
theorem claim_C7_witness :
    accept_connection (List.replicate 10 (⟨3, 1, -1, init_shared_state⟩ : TTT_Game)) 7 =
      (List.replicate 10 (⟨3, 1, -1, init_shared_state⟩ : TTT_Game), true) :=
  (claim_C7 (List.replicate 10 ⟨3, 1, -1, init_shared_state⟩) 7 (by decide)).1 (by decide)

/-- Claim C8: a valid request-for-game datagram is answered with a
GAME_AVAILABLE datagram carrying the protocol version and the server's own
listening port in network byte order exactly when a roster slot is free; with
no free slot no reply is sent. -/
theorem claim_C8 (roster : List TTT_Game) (port : Nat)
    (datagram : UDP_Buffer) (hval : get_udp_command_ok datagram = true)
    (hreq : datagram.command = REQUEST_GAME) :
    ((∃ g ∈ roster, g.sd < 0) →
      request_game roster (htons port) =
        some { version := VERSION, command := GAME_AVAILABLE, port := htons port }) ∧
    ((∀ g ∈ roster, 0 ≤ g.sd) → request_game roster (htons port) = none) := by
  constructor
  · intro hex
    obtain ⟨k, gk, hget, hsd, hfirst, hloop⟩ := find_open_game_loop_first roster 0 hex
    rw [request_game, find_open_game, hloop, if_pos (by positivity)]
    rfl
  · intro hall
    rw [request_game, find_open_game, find_open_game_loop_none roster 0 hall,
      if_neg (by norm_num)]

/-- Witness for claim C8: with one free slot the reply carries version 6,
command 5 and the byte-swapped listening port. -/
theorem claim_C8_witness :
    request_game [(⟨-1, 1, -1, init_shared_state⟩ : TTT_Game)] (htons 8080) =
      some { version := VERSION, command := GAME_AVAILABLE, port := htons 8080 } :=
  (claim_C8 [⟨-1, 1, -1, init_shared_state⟩] 8080 ⟨6, 4, 0⟩ (by decide) (by decide)).1
    ⟨_, List.mem_cons_self _ _, by norm_num⟩


/-! The slot-number field never selects the affected session. -/

/-- new_game ignores the message entirely. -/
lemma new_game_ext (m1 m2 : TCP_Buffer) (game : TTT_Game) :
    new_game m1 game = new_game m2 game := rfl

/-- game_over ignores the message entirely. -/
lemma game_over_ext (m1 m2 : TCP_Buffer) (game : TTT_Game) :
    game_over m1 game = game_over m2 game := rfl

/-- resume_game ignores the message entirely. -/
lemma resume_game_ext (snap : Board) (m1 m2 : TCP_Buffer) (game : TTT_Game) :
    resume_game snap m1 game = resume_game snap m2 game := rfl

/-- move depends on the message only through its data byte. -/
lemma move_ext (m1 m2 : TCP_Buffer) (game : TTT_Game) (h : m1.data = m2.data) :
    move m1 game = move m2 game := by
  rw [move, move, h]

/-- Validation treats two in-range slot numbers alike. -/
lemma get_tcp_command_ok_gameNum (msg : TCP_Buffer) (n1 n2 : Nat)
    (h : msg.command = NEW_GAME ∨ (1 ≤ n1 ∧ n1 ≤ MAX_GAMES ∧ 1 ≤ n2 ∧ n2 ≤ MAX_GAMES)) :
    get_tcp_command_ok { msg with gameNum := n1 } =
      get_tcp_command_ok { msg with gameNum := n2 } := by
  rcases h with h0 | ⟨ha, hb, hc, hd⟩
  · rw [get_tcp_command_ok, get_tcp_command_ok]
    simp [h0]
  · simp only [MAX_GAMES] at hb hd
    rw [get_tcp_command_ok, get_tcp_command_ok]
    dsimp only
    simp only [MAX_GAMES]
    have e1 : ¬(msg.command ≠ NEW_GAME ∧ (n1 < 1 ∨ 10 < n1)) := by
      intro hx
      rcases hx with ⟨_, hx2⟩
      omega
    have e2 : ¬(msg.command ≠ NEW_GAME ∧ (n2 < 1 ∨ 10 < n2)) := by
      intro hx
      rcases hx with ⟨_, hx2⟩
      omega
    rw [if_neg e1, if_neg e2]

/-- Claim C10: the slot-number field of a session message never selects which
session is affected.  First, the reactor dispatches each message to the
session of the slot whose connection it arrived on, and every other roster
slot is left untouched.  Second, beyond the 1..10 range check for non-NewGame
commands, the field's value is ignored: two messages differing only in their
slot number produce identical processing of the arrival slot's session. -/
theorem claim_C10 :
    (∀ (roster : List TTT_Game) (slot : Nat) (snap : Board) (msg : TCP_Buffer)
        (r1 : List TTT_Game) (out : List TCP_Buffer) (j : Nat), j ≠ slot →
        server_handle_game roster slot snap msg = some (r1, out) →
        r1.get? j = roster.get? j) ∧
    (∀ (snap : Board) (msg : TCP_Buffer) (game : TTT_Game) (n1 n2 : Nat),
        (msg.command = NEW_GAME ∨ (1 ≤ n1 ∧ n1 ≤ MAX_GAMES ∧ 1 ≤ n2 ∧ n2 ≤ MAX_GAMES)) →
        handle_tcp snap { msg with gameNum := n1 } game =
          handle_tcp snap { msg with gameNum := n2 } game) := by
  constructor
  · intro roster slot snap msg r1 out j hj hstep
    cases hget : roster.get? slot with
    | none =>
      simp only [server_handle_game, hget, Option.some.injEq, Prod.mk.injEq] at hstep
      obtain ⟨rfl, rfl⟩ := hstep
      rfl
    | some g =>
      cases hh : handle_tcp snap msg g with
      | none =>
        simp only [server_handle_game, hget, hh] at hstep
        exact Option.noConfusion hstep
      | some p =>
        obtain ⟨g1, o⟩ := p
        simp only [server_handle_game, hget, hh, Option.some.injEq, Prod.mk.injEq] at hstep
        obtain ⟨rfl, rfl⟩ := hstep
        exact List.get?_set_ne _ _ (Ne.symm hj)
  · intro snap msg game n1 n2 h
    have hval := get_tcp_command_ok_gameNum msg n1 n2 h
    rw [handle_tcp, handle_tcp, hval]
    dsimp only
    by_cases hok : get_tcp_command_ok { msg with gameNum := n2 } = true
    · rw [if_pos hok, if_pos hok]
      by_cases h0 : msg.command = NEW_GAME
      · rw [if_pos h0, if_pos h0]
        exact new_game_ext _ _ game
      · rw [if_neg h0, if_neg h0]
        by_cases h1 : msg.command = MOVE
        · rw [if_pos h1, if_pos h1]
          exact move_ext _ _ game rfl
        · rw [if_neg h1, if_neg h1]
          by_cases h2 : msg.command = GAME_OVER
          · rw [if_pos h2, if_pos h2]
            exact game_over_ext _ _ game
          · rw [if_neg h2, if_neg h2]
            exact resume_game_ext snap _ _ game
    · rw [if_neg hok, if_neg hok]

/-- Witness for claim C10: dispatching a GameOver message carrying slot number
3 and the same message carrying slot number 7 affects the session the same
way. -/
theorem claim_C10_witness :
    handle_tcp init_shared_state ({ version := 6, command := 2, data := 0, gameNum := 3 })
        (⟨4, 2, -1, init_shared_state⟩ : TTT_Game) =
      handle_tcp init_shared_state ({ version := 6, command := 2, data := 0, gameNum := 7 })
        (⟨4, 2, -1, init_shared_state⟩ : TTT_Game) :=
  claim_C10.2 init_shared_state ⟨6, 2, 0, 0⟩ ⟨4, 2, -1, init_shared_state⟩ 3 7
    (Or.inr (by decide))


/-! Classification of boards: the 8 winning lines of the specification. -/

/-- The 8 lines of the board: 3 rows, 3 columns, 2 diagonals (0-based cells).
Modelled from the specification text; check_win's if chain is verified
against it. -/
def lines : List (Nat × Nat × Nat) :=
  [(0, 1, 2), (3, 4, 5), (6, 7, 8), (0, 3, 6), (1, 4, 7), (2, 5, 8), (0, 4, 8), (2, 4, 6)]

/-- A line completed by the given mark (specification notion of "won"). -/
def lineWin (g : Board) (m : Nat) : Prop :=
  ∃ t ∈ lines, getCell g t.1 = m ∧ getCell g t.2.1 = m ∧ getCell g t.2.2 = m

/-- No cell holds its own label (specification notion of a full board). -/
def boardFull (g : Board) : Prop := ∀ i, i < 9 → getCell g i ≠ label i

set_option maxHeartbeats 1600000 in
/-- A positive check_win exhibits a line whose three cells are equal with the
first cell being Player 1's mark. -/
lemma check_win_pos_elim (g : Board) (h : 0 < check_win g) :
    (g.c1 = g.c2 ∧ g.c2 = g.c3 ∧ g.c1 = P1_MARK) ∨
    (g.c4 = g.c5 ∧ g.c5 = g.c6 ∧ g.c4 = P1_MARK) ∨
    (g.c7 = g.c8 ∧ g.c8 = g.c9 ∧ g.c7 = P1_MARK) ∨
    (g.c1 = g.c4 ∧ g.c4 = g.c7 ∧ g.c1 = P1_MARK) ∨
    (g.c2 = g.c5 ∧ g.c5 = g.c8 ∧ g.c2 = P1_MARK) ∨
    (g.c3 = g.c6 ∧ g.c6 = g.c9 ∧ g.c3 = P1_MARK) ∨
    (g.c1 = g.c5 ∧ g.c5 = g.c9 ∧ g.c1 = P1_MARK) ∨
    (g.c3 = g.c5 ∧ g.c5 = g.c7 ∧ g.c3 = P1_MARK) := by
  rw [check_win] at h
  split_ifs at h <;>
    first
      | (norm_num at h; done)
      | (rename_i e m
         first
           | exact Or.inl ⟨e.1, e.2, m⟩
           | exact Or.inr (Or.inl ⟨e.1, e.2, m⟩)
           | exact Or.inr (Or.inr (Or.inl ⟨e.1, e.2, m⟩))
           | exact Or.inr (Or.inr (Or.inr (Or.inl ⟨e.1, e.2, m⟩)))
           | exact Or.inr (Or.inr (Or.inr (Or.inr (Or.inl ⟨e.1, e.2, m⟩))))
           | exact Or.inr (Or.inr (Or.inr (Or.inr (Or.inr (Or.inl ⟨e.1, e.2, m⟩)))))
           | exact Or.inr (Or.inr (Or.inr (Or.inr (Or.inr (Or.inr (Or.inl ⟨e.1, e.2, m⟩))))))
           | exact Or.inr (Or.inr (Or.inr (Or.inr (Or.inr (Or.inr (Or.inr ⟨e.1, e.2, m⟩)))))))

set_option maxHeartbeats 1600000 in
/-- A negative check_win exhibits a line whose three cells are equal with the
first cell not being Player 1's mark. -/
lemma check_win_neg_elim (g : Board) (h : check_win g < 0) :
    (g.c1 = g.c2 ∧ g.c2 = g.c3 ∧ g.c1 ≠ P1_MARK) ∨
    (g.c4 = g.c5 ∧ g.c5 = g.c6 ∧ g.c4 ≠ P1_MARK) ∨
    (g.c7 = g.c8 ∧ g.c8 = g.c9 ∧ g.c7 ≠ P1_MARK) ∨
    (g.c1 = g.c4 ∧ g.c4 = g.c7 ∧ g.c1 ≠ P1_MARK) ∨
    (g.c2 = g.c5 ∧ g.c5 = g.c8 ∧ g.c2 ≠ P1_MARK) ∨
    (g.c3 = g.c6 ∧ g.c6 = g.c9 ∧ g.c3 ≠ P1_MARK) ∨
    (g.c1 = g.c5 ∧ g.c5 = g.c9 ∧ g.c1 ≠ P1_MARK) ∨
    (g.c3 = g.c5 ∧ g.c5 = g.c7 ∧ g.c3 ≠ P1_MARK) := by
  rw [check_win] at h
  split_ifs at h <;>
    first
      | (norm_num at h; done)
      | (rename_i e m
         first
           | exact Or.inl ⟨e.1, e.2, m⟩
           | exact Or.inr (Or.inl ⟨e.1, e.2, m⟩)
           | exact Or.inr (Or.inr (Or.inl ⟨e.1, e.2, m⟩))
           | exact Or.inr (Or.inr (Or.inr (Or.inl ⟨e.1, e.2, m⟩)))
           | exact Or.inr (Or.inr (Or.inr (Or.inr (Or.inl ⟨e.1, e.2, m⟩))))
           | exact Or.inr (Or.inr (Or.inr (Or.inr (Or.inr (Or.inl ⟨e.1, e.2, m⟩)))))
           | exact Or.inr (Or.inr (Or.inr (Or.inr (Or.inr (Or.inr (Or.inl ⟨e.1, e.2, m⟩))))))
           | exact Or.inr (Or.inr (Or.inr (Or.inr (Or.inr (Or.inr (Or.inr ⟨e.1, e.2, m⟩)))))))

set_option maxHeartbeats 1600000 in
/-- A zero check_win means no line has three equal cells. -/
lemma check_win_zero_elim (g : Board) (h : check_win g = 0) :
    ¬(g.c1 = g.c2 ∧ g.c2 = g.c3) ∧ ¬(g.c4 = g.c5 ∧ g.c5 = g.c6) ∧
    ¬(g.c7 = g.c8 ∧ g.c8 = g.c9) ∧ ¬(g.c1 = g.c4 ∧ g.c4 = g.c7) ∧
    ¬(g.c2 = g.c5 ∧ g.c5 = g.c8) ∧ ¬(g.c3 = g.c6 ∧ g.c6 = g.c9) ∧
    ¬(g.c1 = g.c5 ∧ g.c5 = g.c9) ∧ ¬(g.c3 = g.c5 ∧ g.c5 = g.c7) := by
  rw [check_win] at h
  split_ifs at h <;>
    first
      | (norm_num at h; done)
      | (refine ⟨?_, ?_, ?_, ?_, ?_, ?_, ?_, ?_⟩ <;> assumption)


/-- Under the cell invariant, three equal cells at distinct positions whose
first is not Player 1's mark are all Player 2's mark. -/
lemma mark_line (g : Board) (hInv : cellInv g) (i1 i2 i3 : Nat)
    (h1 : i1 < 9) (h2 : i2 < 9) (h3 : i3 < 9)
    (d12 : i1 ≠ i2) (d13 : i1 ≠ i3) (d23 : i2 ≠ i3)
    (e12 : getCell g i1 = getCell g i2) (e23 : getCell g i2 = getCell g i3)
    (hm : getCell g i1 ≠ P1_MARK) :
    getCell g i1 = P2_MARK ∧ getCell g i2 = P2_MARK ∧ getCell g i3 = P2_MARK := by
  rcases hInv i1 h1 with a1 | a1 | a1 <;> rcases hInv i2 h2 with a2 | a2 | a2 <;>
    rcases hInv i3 h3 with a3 | a3 | a3 <;>
    simp only [label, P1_MARK, P2_MARK] at a1 a2 a3 hm ⊢ <;> omega

/-- Under a positive check_win some line is completed by Player 1's mark. -/
lemma lineWin_of_check_win_pos (g : Board) (h : 0 < check_win g) :
    lineWin g P1_MARK := by
  rcases check_win_pos_elim g h with
    ⟨e1, e2, m⟩ | ⟨e1, e2, m⟩ | ⟨e1, e2, m⟩ | ⟨e1, e2, m⟩ |
    ⟨e1, e2, m⟩ | ⟨e1, e2, m⟩ | ⟨e1, e2, m⟩ | ⟨e1, e2, m⟩
  · exact ⟨(0, 1, 2), by decide, m, e1.symm.trans m, e2.symm.trans (e1.symm.trans m)⟩
  · exact ⟨(3, 4, 5), by decide, m, e1.symm.trans m, e2.symm.trans (e1.symm.trans m)⟩
  · exact ⟨(6, 7, 8), by decide, m, e1.symm.trans m, e2.symm.trans (e1.symm.trans m)⟩
  · exact ⟨(0, 3, 6), by decide, m, e1.symm.trans m, e2.symm.trans (e1.symm.trans m)⟩
  · exact ⟨(1, 4, 7), by decide, m, e1.symm.trans m, e2.symm.trans (e1.symm.trans m)⟩
  · exact ⟨(2, 5, 8), by decide, m, e1.symm.trans m, e2.symm.trans (e1.symm.trans m)⟩
  · exact ⟨(0, 4, 8), by decide, m, e1.symm.trans m, e2.symm.trans (e1.symm.trans m)⟩
  · exact ⟨(2, 4, 6), by decide, m, e1.symm.trans m, e2.symm.trans (e1.symm.trans m)⟩

/-- Under the cell invariant and a negative check_win some line is completed
by Player 2's mark. -/
lemma lineWin_of_check_win_neg (g : Board) (hInv : cellInv g)
    (h : check_win g < 0) : lineWin g P2_MARK := by
  rcases check_win_neg_elim g h with
    ⟨e1, e2, m⟩ | ⟨e1, e2, m⟩ | ⟨e1, e2, m⟩ | ⟨e1, e2, m⟩ |
    ⟨e1, e2, m⟩ | ⟨e1, e2, m⟩ | ⟨e1, e2, m⟩ | ⟨e1, e2, m⟩
  · obtain ⟨w1, w2, w3⟩ := mark_line g hInv 0 1 2 (by norm_num) (by norm_num)
      (by norm_num) (by norm_num) (by norm_num) (by norm_num) e1 e2 m
    exact ⟨(0, 1, 2), by decide, w1, w2, w3⟩
  · obtain ⟨w1, w2, w3⟩ := mark_line g hInv 3 4 5 (by norm_num) (by norm_num)
      (by norm_num) (by norm_num) (by norm_num) (by norm_num) e1 e2 m
    exact ⟨(3, 4, 5), by decide, w1, w2, w3⟩
  · obtain ⟨w1, w2, w3⟩ := mark_line g hInv 6 7 8 (by norm_num) (by norm_num)
      (by norm_num) (by norm_num) (by norm_num) (by norm_num) e1 e2 m
    exact ⟨(6, 7, 8), by decide, w1, w2, w3⟩
  · obtain ⟨w1, w2, w3⟩ := mark_line g hInv 0 3 6 (by norm_num) (by norm_num)
      (by norm_num) (by norm_num) (by norm_num) (by norm_num) e1 e2 m
    exact ⟨(0, 3, 6), by decide, w1, w2, w3⟩
  · obtain ⟨w1, w2, w3⟩ := mark_line g hInv 1 4 7 (by norm_num) (by norm_num)
      (by norm_num) (by norm_num) (by norm_num) (by norm_num) e1 e2 m
    exact ⟨(1, 4, 7), by decide, w1, w2, w3⟩
  · obtain ⟨w1, w2, w3⟩ := mark_line g hInv 2 5 8 (by norm_num) (by norm_num)
      (by norm_num) (by norm_num) (by norm_num) (by norm_num) e1 e2 m
    exact ⟨(2, 5, 8), by decide, w1, w2, w3⟩
  · obtain ⟨w1, w2, w3⟩ := mark_line g hInv 0 4 8 (by norm_num) (by norm_num)
      (by norm_num) (by norm_num) (by norm_num) (by norm_num) e1 e2 m
    exact ⟨(0, 4, 8), by decide, w1, w2, w3⟩
  · obtain ⟨w1, w2, w3⟩ := mark_line g hInv 2 4 6 (by norm_num) (by norm_num)
      (by norm_num) (by norm_num) (by norm_num) (by norm_num) e1 e2 m
    exact ⟨(2, 4, 6), by decide, w1, w2, w3⟩

/-- A completed line makes check_win nonzero. -/
lemma check_win_ne_zero_of_lineWin (g : Board) (m : Nat) (h : lineWin g m) :
    check_win g ≠ 0 := by
  intro h0
  obtain ⟨hn1, hn2, hn3, hn4, hn5, hn6, hn7, hn8⟩ := check_win_zero_elim g h0
  obtain ⟨t, ht, hA, hB, hC⟩ := h
  simp only [lines, List.mem_cons, List.not_mem_nil, or_false] at ht
  rcases ht with rfl | rfl | rfl | rfl | rfl | rfl | rfl | rfl
  · exact hn1 ⟨hA.trans hB.symm, hB.trans hC.symm⟩
  · exact hn2 ⟨hA.trans hB.symm, hB.trans hC.symm⟩
  · exact hn3 ⟨hA.trans hB.symm, hB.trans hC.symm⟩
  · exact hn4 ⟨hA.trans hB.symm, hB.trans hC.symm⟩
  · exact hn5 ⟨hA.trans hB.symm, hB.trans hC.symm⟩
  · exact hn6 ⟨hA.trans hB.symm, hB.trans hC.symm⟩
  · exact hn7 ⟨hA.trans hB.symm, hB.trans hC.symm⟩
  · exact hn8 ⟨hA.trans hB.symm, hB.trans hC.symm⟩

/-- check_draw holds exactly on full boards. -/
lemma check_draw_iff (g : Board) : check_draw g = true ↔ boardFull g := by
  rw [check_draw, List.all_eq_true]
  constructor
  · intro h i hi
    have hx := h i ((positions_mem_iff i).mpr hi)
    simpa [bne_iff_ne] using hx
  · intro h i hi
    simpa [bne_iff_ne] using h i ((positions_mem_iff i).mp hi)


/-- Claim C3: for every board satisfying the cell invariant, check_game_over
classifies the game as over with a winning player exactly when one of the 8
lines (3 rows, 3 columns, 2 diagonals) holds three equal marks, attributing
the win to a player owning such a line; as drawn (winner 0) exactly when no
cell holds its label and no line is won; and as in-progress otherwise, leaving
the session untouched. -/
theorem claim_C3 (game : TTT_Game) (hInv : cellInv game.board) :
    ((check_game_over game).1 = true ↔
      (lineWin game.board P1_MARK ∨ lineWin game.board P2_MARK ∨
        boardFull game.board)) ∧
    ((check_game_over game).1 = true → (check_game_over game).2.winner = 1 →
      lineWin game.board P1_MARK) ∧
    ((check_game_over game).1 = true → (check_game_over game).2.winner = 2 →
      lineWin game.board P2_MARK) ∧
    ((lineWin game.board P1_MARK ∨ lineWin game.board P2_MARK) →
      (check_game_over game).1 = true ∧
        ((check_game_over game).2.winner = 1 ∨ (check_game_over game).2.winner = 2)) ∧
    ((check_game_over game).1 = true → ((check_game_over game).2.winner = 0 ↔
      (boardFull game.board ∧ ¬lineWin game.board P1_MARK ∧
        ¬lineWin game.board P2_MARK))) ∧
    ((check_game_over game).1 = false ↔
      (¬lineWin game.board P1_MARK ∧ ¬lineWin game.board P2_MARK ∧
        ¬boardFull game.board)) ∧
    ((check_game_over game).1 = false → (check_game_over game).2 = game) := by
  rcases check_win_cases game.board with hw | hw | hw
  · have hX : lineWin game.board P1_MARK :=
      lineWin_of_check_win_pos game.board (by rw [hw]; norm_num)
    have hred : check_game_over game = (true, { game with winner := 1 }) := by
      rw [check_game_over, hw]
      norm_num
    rw [hred]
    refine ⟨iff_of_true rfl (Or.inl hX), fun _ _ => hX, ?_, fun _ => ⟨rfl, Or.inl rfl⟩,
      ?_, ?_, ?_⟩
    · intro _ hww
      simp at hww
    · intro _
      exact iff_of_false (by simp) (fun hx => hx.2.1 hX)
    · exact iff_of_false (by simp) (fun hx => hx.1 hX)
    · intro hfalse
      simp at hfalse
  · have hnx : ¬lineWin game.board P1_MARK :=
      fun hx => check_win_ne_zero_of_lineWin game.board P1_MARK hx hw
    have hno : ¬lineWin game.board P2_MARK :=
      fun hx => check_win_ne_zero_of_lineWin game.board P2_MARK hx hw
    by_cases hd : check_draw game.board = true
    · have hfull : boardFull game.board := (check_draw_iff game.board).mp hd
      have hred : check_game_over game = (true, { game with winner := 0 }) := by
        rw [check_game_over, hw, if_neg (by norm_num), if_pos hd]
      rw [hred]
      refine ⟨iff_of_true rfl (Or.inr (Or.inr hfull)), ?_, ?_, ?_, ?_, ?_, ?_⟩
      · intro _ h1
        simp at h1
      · intro _ h2
        simp at h2
      · intro hwin
        rcases hwin with hx | hx
        · exact absurd hx hnx
        · exact absurd hx hno
      · intro _
        exact iff_of_true rfl ⟨hfull, hnx, hno⟩
      · exact iff_of_false (by simp) (fun hx => hx.2.2 hfull)
      · intro hfalse
        simp at hfalse
    · have hnfull : ¬boardFull game.board :=
        fun hf => hd ((check_draw_iff game.board).mpr hf)
      have hred : check_game_over game = (false, game) := by
        rw [check_game_over, hw, if_neg (by norm_num), if_neg hd]
      rw [hred]
      refine ⟨?_, ?_, ?_, ?_, ?_, ?_, fun _ => rfl⟩
      · refine iff_of_false (by simp) ?_
        intro hx
        rcases hx with hx | hx | hx
        · exact hnx hx
        · exact hno hx
        · exact hnfull hx
      · intro htrue
        simp at htrue
      · intro htrue
        simp at htrue
      · intro hwin
        rcases hwin with hx | hx
        · exact absurd hx hnx
        · exact absurd hx hno
      · intro htrue
        simp at htrue
      · exact iff_of_true rfl ⟨hnx, hno, hnfull⟩
  · have hO : lineWin game.board P2_MARK :=
      lineWin_of_check_win_neg game.board hInv (by rw [hw]; norm_num)
    have hred : check_game_over game = (true, { game with winner := 2 }) := by
      rw [check_game_over, hw]
      norm_num
    rw [hred]
    refine ⟨iff_of_true rfl (Or.inr (Or.inl hO)), ?_, fun _ _ => hO,
      fun _ => ⟨rfl, Or.inr rfl⟩, ?_, ?_, ?_⟩
    · intro _ hww
      simp at hww
    · intro _
      exact iff_of_false (by simp) (fun hx => hx.2.2 hO)
    · exact iff_of_false (by simp) (fun hx => hx.2.1 hO)
    · intro hfalse
      simp at hfalse

/-- Witness for claim C3: the board with a completed top row of Player 1
marks is classified as won by player 1. -/
theorem claim_C3_witness :
    ((check_game_over ⟨1, 1, -1, ⟨88, 88, 88, 52, 53, 54, 55, 56, 57⟩⟩).1 = true ↔
      (lineWin (⟨88, 88, 88, 52, 53, 54, 55, 56, 57⟩ : Board) P1_MARK ∨
        lineWin (⟨88, 88, 88, 52, 53, 54, 55, 56, 57⟩ : Board) P2_MARK ∨
        boardFull (⟨88, 88, 88, 52, 53, 54, 55, 56, 57⟩ : Board))) ∧
    ((check_game_over ⟨1, 1, -1, ⟨88, 88, 88, 52, 53, 54, 55, 56, 57⟩⟩).1 = true →
      (check_game_over ⟨1, 1, -1, ⟨88, 88, 88, 52, 53, 54, 55, 56, 57⟩⟩).2.winner = 1 →
      lineWin (⟨88, 88, 88, 52, 53, 54, 55, 56, 57⟩ : Board) P1_MARK) ∧
    ((check_game_over ⟨1, 1, -1, ⟨88, 88, 88, 52, 53, 54, 55, 56, 57⟩⟩).1 = true →
      (check_game_over ⟨1, 1, -1, ⟨88, 88, 88, 52, 53, 54, 55, 56, 57⟩⟩).2.winner = 2 →
      lineWin (⟨88, 88, 88, 52, 53, 54, 55, 56, 57⟩ : Board) P2_MARK) ∧
    ((lineWin (⟨88, 88, 88, 52, 53, 54, 55, 56, 57⟩ : Board) P1_MARK ∨
        lineWin (⟨88, 88, 88, 52, 53, 54, 55, 56, 57⟩ : Board) P2_MARK) →
      (check_game_over ⟨1, 1, -1, ⟨88, 88, 88, 52, 53, 54, 55, 56, 57⟩⟩).1 = true ∧
        ((check_game_over ⟨1, 1, -1, ⟨88, 88, 88, 52, 53, 54, 55, 56, 57⟩⟩).2.winner = 1 ∨
          (check_game_over ⟨1, 1, -1, ⟨88, 88, 88, 52, 53, 54, 55, 56, 57⟩⟩).2.winner = 2)) ∧
    ((check_game_over ⟨1, 1, -1, ⟨88, 88, 88, 52, 53, 54, 55, 56, 57⟩⟩).1 = true →
      ((check_game_over ⟨1, 1, -1, ⟨88, 88, 88, 52, 53, 54, 55, 56, 57⟩⟩).2.winner = 0 ↔
        (boardFull (⟨88, 88, 88, 52, 53, 54, 55, 56, 57⟩ : Board) ∧
          ¬lineWin (⟨88, 88, 88, 52, 53, 54, 55, 56, 57⟩ : Board) P1_MARK ∧
          ¬lineWin (⟨88, 88, 88, 52, 53, 54, 55, 56, 57⟩ : Board) P2_MARK))) ∧
    ((check_game_over ⟨1, 1, -1, ⟨88, 88, 88, 52, 53, 54, 55, 56, 57⟩⟩).1 = false ↔
      (¬lineWin (⟨88, 88, 88, 52, 53, 54, 55, 56, 57⟩ : Board) P1_MARK ∧
        ¬lineWin (⟨88, 88, 88, 52, 53, 54, 55, 56, 57⟩ : Board) P2_MARK ∧
        ¬boardFull (⟨88, 88, 88, 52, 53, 54, 55, 56, 57⟩ : Board))) ∧
    ((check_game_over ⟨1, 1, -1, ⟨88, 88, 88, 52, 53, 54, 55, 56, 57⟩⟩).1 = false →
      (check_game_over ⟨1, 1, -1, ⟨88, 88, 88, 52, 53, 54, 55, 56, 57⟩⟩).2 =
        ⟨1, 1, -1, ⟨88, 88, 88, 52, 53, 54, 55, 56, 57⟩⟩) :=
  claim_C3 ⟨1, 1, -1, ⟨88, 88, 88, 52, 53, 54, 55, 56, 57⟩⟩ (by decide)

end TTT
